import Mathlib

/-!
Verification development for the Teleops incident-intake bot
(`regular_bot.py`, `jira_client.py`).  The definitions below are a shallow
embedding of the Python source: pure functions become Lean functions, the
per-session mutable draft becomes explicit state passing on a `Draft`
structure, and gateway responses become parameters of the step functions.

Modelling conventions:
* Python `None`-able string fields become `Option String`; Python truthiness
  of such values (`if not x`) is `pyTruthyStrOpt`.
* Python dicts with string keys and int values (`Ticket.dtp_vehicles`)
  become insertion-ordered association lists with update-in-place semantics.
* Character-level functions (`str.upper`, `str.isalnum`, `\d` in regexes)
  are modelled on the repertoire the plate formats exercise (ASCII plus the
  Cyrillic alphabet); the program's regexes only accept characters from this
  repertoire.
* External calls (Jira REST, chat provisioning) are parameters: the step
  functions take the gateway's already-parsed answer as an argument.
-/

namespace RABot

/-- Python truthiness of an optional string: `None` and `""` are falsy. -/
def pyTruthyStrOpt : Option String → Bool
  | none => false
  | some s => s != ""

/-- Python `str.strip()`: drop whitespace from both ends. -/
def pyStrip (s : String) : String :=
  String.mk (((s.data.dropWhile Char.isWhitespace).reverse.dropWhile Char.isWhitespace).reverse)

/-- Python truthiness of an optional int: `None` and `0` are falsy. -/
def pyTruthyIntOpt : Option Int → Bool
  | none => false
  | some n => n != 0

/-- Python `x or dflt` for an optional string `x` (falsy selects `dflt`). -/
def pyOrStr (o : Option String) (dflt : String) : String :=
  match o with
  | some s => if s = "" then dflt else s
  | none => dflt

/-- The `—` placeholder `TEXTS["common"]["empty"]`. -/
def emptyMark : String := "—"

/-- One character of Python's `html.escape` (used by `_safe_user_html`). -/
def htmlEscapeChar (c : Char) : String :=
  if c = '&' then "&amp;"
  else if c = '<' then "&lt;"
  else if c = '>' then "&gt;"
  else if c = Char.ofNat 34 then "&quot;"
  else if c = Char.ofNat 39 then "&#x27;"
  else String.singleton c

/-- Python's `html.escape` with default quoting. -/
def htmlEscape (s : String) : String :=
  String.join (s.data.map htmlEscapeChar)

/-- `_safe_user_html`: empty / missing text renders as the placeholder,
everything else is HTML-escaped. -/
def _safe_user_html (text : Option String) : String :=
  match text with
  | none => emptyMark
  | some s => if s = "" then emptyMark else htmlEscape s

/-! ### Plate validation (`SERIES_CYR`, `LAT_TO_CYR`, the plate regexes) -/

/-- Membership in the series alphabet `SERIES_CYR = "АВЕКМНОРСТУХ"`
(the character class of the plate regexes). -/
def isSeriesCyr (c : Char) : Bool :=
  c == 'А' || c == 'В' || c == 'Е' || c == 'К' || c == 'М' || c == 'Н' ||
  c == 'О' || c == 'Р' || c == 'С' || c == 'Т' || c == 'У' || c == 'Х'

/-- The `LAT_TO_CYR` translation table: Latin look-alikes map to their
Cyrillic counterparts, everything else is unchanged. -/
def latToCyr (c : Char) : Char :=
  if c = 'A' then 'А' else if c = 'B' then 'В' else if c = 'E' then 'Е'
  else if c = 'K' then 'К' else if c = 'M' then 'М' else if c = 'H' then 'Н'
  else if c = 'O' then 'О' else if c = 'P' then 'Р' else if c = 'C' then 'С'
  else if c = 'T' then 'Т' else if c = 'Y' then 'У' else if c = 'X' then 'Х'
  else c

/-- Python `str.upper`, modelled character-wise on the ASCII and Cyrillic
repertoire (the only letters the plate pipeline can accept). -/
def pyUpperChar (c : Char) : Char :=
  if 'a' ≤ c ∧ c ≤ 'z' then Char.ofNat (c.toNat - 32)
  else if 'а' ≤ c ∧ c ≤ 'я' then Char.ofNat (c.toNat - 32)
  else if c = 'ё' then 'Ё'
  else c

/-- Python `str.isalnum`, modelled on the ASCII and Cyrillic repertoire. -/
def pyIsAlnum (c : Char) : Bool :=
  c.isDigit || c.isAlpha || (decide ('А' ≤ c) && decide (c ≤ 'я')) || c == 'Ё' || c == 'ё'

/-- The shared pre-processing of both plate normalizers:
`"".join(ch for ch in text.upper() if ch.isalnum()).translate(LAT_TO_CYR)`. -/
def stripMapPlate (text : String) : String :=
  String.mk (((text.data.map pyUpperChar).filter pyIsAlnum).map latToCyr)

/-- Anchored match of `^([S])(\d{lo,hi})([S]{2})(\d{2,3})$` (with `S` the
series alphabet), returning the four capture groups.  `PLATE_RE_34` is
`parseVats 3 4`, `PLATE_RE_3` is `parseVats 3 3`. -/
def parseVats (lo hi : Nat) (cs : List Char) : Option (Char × List Char × Char × Char × List Char) :=
  match cs with
  | [] => none
  | c :: rest =>
    if isSeriesCyr c then
      let d := rest.takeWhile Char.isDigit
      let r2 := rest.dropWhile Char.isDigit
      if lo ≤ d.length ∧ d.length ≤ hi then
        match r2 with
        | a :: b :: reg =>
          if isSeriesCyr a ∧ isSeriesCyr b ∧ reg.all Char.isDigit ∧ 2 ≤ reg.length ∧ reg.length ≤ 3 then
            some (c, d, a, b, reg)
          else none
        | _ => none
      else none
    else none

/-- Anchored match of `REF_COMPACT_RE = ^([S]{2})(\d{4})(\d{2,3})$`:
two series letters followed by 6 or 7 digits (groups of 4 and 2–3). -/
def parseRef (cs : List Char) : Option (Char × Char × List Char × List Char) :=
  match cs with
  | a :: b :: rest =>
    if isSeriesCyr a ∧ isSeriesCyr b ∧ rest.all Char.isDigit ∧ 6 ≤ rest.length ∧ rest.length ≤ 7 then
      some (a, b, rest.take 4, rest.drop 4)
    else none
  | _ => none

/-- `normalize_vats_plate`: strip non-alphanumerics, uppercase, map Latin
look-alikes, then match the brand-dependent pattern (`PLATE_RE_3` for
`KIA_CEED`, `PLATE_RE_34` otherwise); the result is the concatenation of the
capture groups. -/
def normalize_vats_plate (text : String) (brand : Option String) : Option String :=
  if text = "" then none
  else
    let s := stripMapPlate text
    let p := if brand = some "KIA_CEED" then parseVats 3 3 s.data else parseVats 3 4 s.data
    match p with
    | none => none
    | some (l1, d, a, b, reg) => some (String.mk (l1 :: (d ++ a :: b :: reg)))

/-- `normalize_ref_plate`: same pipeline against `REF_COMPACT_RE`. -/
def normalize_ref_plate (text : String) : Option String :=
  if text = "" then none
  else
    let s := stripMapPlate text
    match parseRef s.data with
    | none => none
    | some (a, b, d4, reg) => some (String.mk (a :: b :: (d4 ++ reg)))

/-- `format_vats_display`: re-insert the space before the region code; a
non-matching compact value is returned unchanged, a falsy one shows `—`. -/
def format_vats_display (compact : Option String) : String :=
  match compact with
  | none => emptyMark
  | some c =>
    if c = "" then emptyMark
    else
      match parseVats 3 4 c.data with
      | some (l1, d, a, b, reg) => String.mk (l1 :: (d ++ a :: b :: ' ' :: reg))
      | none =>
        match parseVats 3 3 c.data with
        | some (l1, d, a, b, reg) => String.mk (l1 :: (d ++ a :: b :: ' ' :: reg))
        | none => c

/-- `format_ref_display`: same for the trailer plate. -/
def format_ref_display (compact : Option String) : String :=
  match compact with
  | none => emptyMark
  | some c =>
    if c = "" then emptyMark
    else
      match parseRef c.data with
      | some (a, b, d4, reg) => String.mk (a :: b :: (d4 ++ ' ' :: reg))
      | none => c

/-- The decomposition described in the specification of the primary-plate
pattern: one series letter, a block of `lo`–`hi` digits, two series letters
and a 2-or-3-digit region code (spec-side characterization, to be proved
equivalent to the acceptance of `normalize_vats_plate`). -/
def vatsShape (lo hi : Nat) (cs : List Char) : Prop :=
  ∃ l1 d a b reg, cs = l1 :: (d ++ a :: b :: reg) ∧ isSeriesCyr l1 = true ∧
    d.all Char.isDigit = true ∧ lo ≤ d.length ∧ d.length ≤ hi ∧
    isSeriesCyr a = true ∧ isSeriesCyr b = true ∧ reg.all Char.isDigit = true ∧
    2 ≤ reg.length ∧ reg.length ≤ 3

/-! ### Data model (`Ticket`, `Draft`) -/

/-- The `Ticket` dataclass.  `dtp_vehicles` is an insertion-ordered
association list standing for the Python dict. -/
structure Ticket where
  id : String
  user_id : Int := 0
  username : Option String := none
  created_at : String := ""
  incident_type : Option String := none
  incident_source : Option String := none
  dtp_type : Option String := none
  incident_time : Option String := none
  brand : Option String := none
  plate_vats : Option String := none
  plate_ref : Option String := none
  dtp_vehicles : List (String × Int) := []
  location : Option String := none
  dtp_damage_text : Option String := none
  obstacle_on_road : Option String := none
  break_symptoms : Option String := none
  problem_desc : Option String := none
  notes : Option String := none
  jira_main : Option String := none
  ra_need_dtp_formalization : Option String := none
  ra_need_diagnosis : Option String := none
  ra_need_repair : Option String := none
  ra_need_evacuation : Option String := none
  ra_called_112 : Option String := none
  ra_chat_id : Option Int := none
  deriving Repr, DecidableEq

/-- Mode tag `PRIMARY_MODE = "primary"`. -/
def PRIMARY_MODE : String := "primary"

/-- Mode tag `RA_MODE = "ra"`. -/
def RA_MODE : String := "ra"

/-- The per-session draft dict: ticket, cursor, mode, editing flag and the
transient custom-incident-source flag. -/
structure Draft where
  ticket : Ticket
  step_idx : Nat := 0
  mode : String := PRIMARY_MODE
  editing : Bool := false
  incident_source_custom : Bool := false
  deriving Repr, DecidableEq

/-- `ALL_KNOWN_KEYS` from the source (note: `jira_main` is absent). -/
def ALL_KNOWN_KEYS : List String :=
  ["incident_type", "incident_source", "dtp_type", "incident_time", "brand",
   "plate_vats", "plate_ref", "dtp_vehicles", "location",
   "dtp_damage_text", "obstacle_on_road", "break_symptoms",
   "problem_desc", "notes",
   "ra_need_dtp_formalization",
   "ra_need_diagnosis", "ra_need_repair", "ra_need_evacuation", "ra_called_112"]

/-- The settable ticket attributes (the string keys the handlers dispatch
on). -/
inductive FieldKey where
  | incident_type | incident_source | dtp_type | incident_time | brand
  | plate_vats | plate_ref | dtp_vehicles | location | dtp_damage_text
  | obstacle_on_road | break_symptoms | problem_desc | notes | jira_main
  | ra_need_dtp_formalization | ra_need_diagnosis | ra_need_repair
  | ra_need_evacuation | ra_called_112
  deriving Repr, DecidableEq

/-- The attribute name of a `FieldKey`. -/
def fieldKeyName : FieldKey → String
  | .incident_type => "incident_type"
  | .incident_source => "incident_source"
  | .dtp_type => "dtp_type"
  | .incident_time => "incident_time"
  | .brand => "brand"
  | .plate_vats => "plate_vats"
  | .plate_ref => "plate_ref"
  | .dtp_vehicles => "dtp_vehicles"
  | .location => "location"
  | .dtp_damage_text => "dtp_damage_text"
  | .obstacle_on_road => "obstacle_on_road"
  | .break_symptoms => "break_symptoms"
  | .problem_desc => "problem_desc"
  | .notes => "notes"
  | .jira_main => "jira_main"
  | .ra_need_dtp_formalization => "ra_need_dtp_formalization"
  | .ra_need_diagnosis => "ra_need_diagnosis"
  | .ra_need_repair => "ra_need_repair"
  | .ra_need_evacuation => "ra_need_evacuation"
  | .ra_called_112 => "ra_called_112"

/-- String-key dispatch: which declared attribute a key names. -/
def fieldKeyOf (key : String) : Option FieldKey :=
  if key = "incident_type" then some .incident_type
  else if key = "incident_source" then some .incident_source
  else if key = "dtp_type" then some .dtp_type
  else if key = "incident_time" then some .incident_time
  else if key = "brand" then some .brand
  else if key = "plate_vats" then some .plate_vats
  else if key = "plate_ref" then some .plate_ref
  else if key = "dtp_vehicles" then some .dtp_vehicles
  else if key = "location" then some .location
  else if key = "dtp_damage_text" then some .dtp_damage_text
  else if key = "obstacle_on_road" then some .obstacle_on_road
  else if key = "break_symptoms" then some .break_symptoms
  else if key = "problem_desc" then some .problem_desc
  else if key = "notes" then some .notes
  else if key = "jira_main" then some .jira_main
  else if key = "ra_need_dtp_formalization" then some .ra_need_dtp_formalization
  else if key = "ra_need_diagnosis" then some .ra_need_diagnosis
  else if key = "ra_need_repair" then some .ra_need_repair
  else if key = "ra_need_evacuation" then some .ra_need_evacuation
  else if key = "ra_called_112" then some .ra_called_112
  else none

/-- Input kind of a field (`STEP_INPUT_KIND` has no entry for
`incident_time`, so that key yields the out-of-dict marker `""`). -/
def stepKindOfField : FieldKey → String
  | .incident_type => "choice"
  | .incident_source => "choice"
  | .dtp_type => "choice"
  | .incident_time => ""
  | .brand => "choice"
  | .plate_vats => "plate"
  | .plate_ref => "plate_ref"
  | .dtp_vehicles => "counter"
  | .location => "text"
  | .dtp_damage_text => "text"
  | .obstacle_on_road => "choice"
  | .break_symptoms => "text"
  | .problem_desc => "text"
  | .notes => "text"
  | .jira_main => ""
  | .ra_need_dtp_formalization => "choice"
  | .ra_need_diagnosis => "choice"
  | .ra_need_repair => "choice"
  | .ra_need_evacuation => "choice"
  | .ra_called_112 => "choice"

/-- `STEP_INPUT_KIND` lookup; keys outside the dict give `""` (a `KeyError`
in Python, unreachable because step keys come from the step catalog). -/
def STEP_INPUT_KIND (key : String) : String :=
  match fieldKeyOf key with
  | some fk => stepKindOfField fk
  | none => ""

/-- The sentinel `INCIDENT_SOURCE_CUSTOM_VALUE`. -/
def INCIDENT_SOURCE_CUSTOM_VALUE : String := "__CUSTOM_INCIDENT_SOURCE__"

/-! ### Step catalog -/

/-- Python `list.insert(i, x)` (appends when `i` is past the end). -/
def listInsertPy (i : Nat) (x : α) (l : List α) : List α :=
  l.take i ++ x :: l.drop i

/-- Index of the first occurrence (length when absent; Python's
`list.index` raises then, but every use is guarded by membership). -/
def listIndexOf [DecidableEq α] (x : α) : List α → Nat
  | [] => 0
  | y :: t => if y = x then 0 else listIndexOf x t + 1

/-- `_maybe_add_plate_ref`: for brand SITRAK insert `plate_ref` right after
`plate_vats`. -/
def maybeAddPlateRef (ticket : Option Ticket) (seq : List String) : List String :=
  match ticket with
  | some t =>
    if t.brand = some "SITRAK" then
      let insertAfter :=
        if "plate_vats" ∈ seq then listIndexOf "plate_vats" seq + 1 else seq.length
      listInsertPy insertAfter "plate_ref" seq
    else seq
  | none => seq

/-- `_steps_for_primary`: the collision (DTP) branch or the breakdown
branch, each with the optional trailer-plate insertion. -/
def _steps_for_primary (ticket : Option Ticket) : List String :=
  if (match ticket with
      | some t => t.incident_type == some "DTP"
      | none => false) then
    maybeAddPlateRef ticket
      ["incident_type", "incident_source", "dtp_type", "brand", "plate_vats", "dtp_vehicles",
       "location", "dtp_damage_text", "problem_desc", "obstacle_on_road", "notes"]
  else
    maybeAddPlateRef ticket
      ["incident_type", "incident_source", "brand", "plate_vats", "location", "break_symptoms",
       "problem_desc", "obstacle_on_road", "notes"]

/-- `_steps_for_ra`: the short secondary-workflow list. -/
def _steps_for_ra (ticket : Option Ticket) : List String :=
  if (match ticket with
      | some t => t.incident_type == some "DTP"
      | none => false) then
    ["ra_need_dtp_formalization", "ra_need_diagnosis", "ra_need_repair", "ra_need_evacuation",
     "ra_called_112"]
  else
    ["ra_need_diagnosis", "ra_need_repair", "ra_need_evacuation"]

/-- `active_steps`: mode-dependent step list of a draft (the draft always
holds a ticket in the modelled flows). -/
def active_steps (d : Draft) : List String :=
  if d.mode = PRIMARY_MODE then _steps_for_primary (some d.ticket)
  else if d.mode = RA_MODE then _steps_for_ra (some d.ticket)
  else _steps_for_primary (some d.ticket)

/-- The clamping write-back performed by `current_step_key`
(`idx = max(0, len(steps) - 1 if idx >= len(steps) else idx)`). -/
def clamp_step_idx (d : Draft) : Draft :=
  let n := (active_steps d).length
  if n ≤ d.step_idx then { d with step_idx := n - 1 } else d

/-- The key `current_step_key` returns (the step at the clamped cursor). -/
def current_key (d : Draft) : String :=
  let steps := active_steps d
  steps.getD (if steps.length ≤ d.step_idx then steps.length - 1 else d.step_idx) ""

/-- `set_step_idx`: clamp into `[0, len-1]` of the active list. -/
def set_step_idx (d : Draft) (idx : Nat) : Draft :=
  { d with step_idx := min idx ((active_steps d).length - 1) }

/-- `goto_next_step`. -/
def goto_next_step (d : Draft) : Draft :=
  { d with step_idx := min (d.step_idx + 1) ((active_steps d).length - 1) }

/-- `goto_prev_step`. -/
def goto_prev_step (d : Draft) : Draft :=
  { d with step_idx := d.step_idx - 1 }

/-- `is_last_step`: `step_idx >= len(steps) - 1`. -/
def is_last_step (d : Draft) : Bool :=
  decide ((active_steps d).length - 1 ≤ d.step_idx)

/-! ### Field access (`set_field_local`, `getattr`) -/

/-- A value passed to `set_field_local`: the handlers only ever pass a
string or `None`. -/
inductive FieldVal where
  | vnone
  | vstr (s : String)
  deriving Repr, DecidableEq

/-- Assignment to one declared attribute.  `dtp_vehicles` gets the empty
dict for `None`; a string assigned to `dtp_vehicles` would leave the Python
attribute ill-typed and no handler path does it, so the model also empties
the dict there. -/
def setTicketField (t : Ticket) (fk : FieldKey) (ov : Option String) : Ticket :=
  match fk with
  | .dtp_vehicles => { t with dtp_vehicles := [] }
  | .incident_type => { t with incident_type := ov }
  | .incident_source => { t with incident_source := ov }
  | .dtp_type => { t with dtp_type := ov }
  | .incident_time => { t with incident_time := ov }
  | .brand => { t with brand := ov }
  | .plate_vats => { t with plate_vats := ov }
  | .plate_ref => { t with plate_ref := ov }
  | .location => { t with location := ov }
  | .dtp_damage_text => { t with dtp_damage_text := ov }
  | .obstacle_on_road => { t with obstacle_on_road := ov }
  | .break_symptoms => { t with break_symptoms := ov }
  | .problem_desc => { t with problem_desc := ov }
  | .notes => { t with notes := ov }
  | .jira_main => { t with jira_main := ov }
  | .ra_need_dtp_formalization => { t with ra_need_dtp_formalization := ov }
  | .ra_need_diagnosis => { t with ra_need_diagnosis := ov }
  | .ra_need_repair => { t with ra_need_repair := ov }
  | .ra_need_evacuation => { t with ra_need_evacuation := ov }
  | .ra_called_112 => { t with ra_called_112 := ov }

/-- `set_field_local`: key-string dispatch plus assignment.  `setattr` on a
key that names no declared field leaves the declared fields unchanged (in
Python it would create a stray attribute). -/
def set_field_local (t : Ticket) (key : String) (val : FieldVal) : Ticket :=
  let ov : Option String := match val with | .vnone => none | .vstr s => some s
  match fieldKeyOf key with
  | some fk => setTicketField t fk ov
  | none => t

/-- `getattr` on one declared attribute (the optional-string view;
`dtp_vehicles` is not an optional string). -/
def getTicketField (t : Ticket) : FieldKey → Option String
  | .incident_type => t.incident_type
  | .incident_source => t.incident_source
  | .dtp_type => t.dtp_type
  | .incident_time => t.incident_time
  | .brand => t.brand
  | .plate_vats => t.plate_vats
  | .plate_ref => t.plate_ref
  | .dtp_vehicles => none
  | .location => t.location
  | .dtp_damage_text => t.dtp_damage_text
  | .obstacle_on_road => t.obstacle_on_road
  | .break_symptoms => t.break_symptoms
  | .problem_desc => t.problem_desc
  | .notes => t.notes
  | .jira_main => t.jira_main
  | .ra_need_dtp_formalization => t.ra_need_dtp_formalization
  | .ra_need_diagnosis => t.ra_need_diagnosis
  | .ra_need_repair => t.ra_need_repair
  | .ra_need_evacuation => t.ra_need_evacuation
  | .ra_called_112 => t.ra_called_112

/-- `getattr` by key string on the optional-string fields (used to state
neutrality of a skip). -/
def get_field_str (t : Ticket) (key : String) : Option String :=
  match fieldKeyOf key with
  | some fk => getTicketField t fk
  | none => none

/-! ### The vehicle-count dict -/

/-- Python `d.get(k, dflt)`. -/
def dictGet (v : List (String × Int)) (k : String) (dflt : Int) : Int :=
  match v.find? (fun p => p.1 == k) with
  | some p => p.2
  | none => dflt

/-- Python `d[k] = x`: update in place when the key exists, append
otherwise. -/
def dictSet (v : List (String × Int)) (k : String) (x : Int) : List (String × Int) :=
  if v.any (fun p => p.1 == k) then
    v.map (fun p => if p.1 == k then (p.1, x) else p)
  else v ++ [(k, x)]

/-! ### Summary rendering -/

/-- `TEXTS["vehicles"]` labels. -/
def vehicleName (k : String) : String :=
  if k = "light" then "Легковой"
  else if k = "bus" then "Автобус"
  else if k = "truck" then "Грузовой"
  else if k = "moto" then "Мото"
  else ""

/-- Value-to-label humanization (`HUMANIZE_VALUE`), keyed like the source. -/
def humanizeLookup (key v : String) : Option String :=
  if key = "incident_type" then
    (if v = "DTP" then some "ДТП" else if v = "BREAK" then some "Поломка" else none)
  else if key = "incident_source" then
    (if v = "DRIVER_CALL" then some "Звонок от водителя"
     else if v = "TELEOPS_REQUEST" then some "Запрос в Телеопс"
     else if v = "EXTERNAL_CALL" then some "Звонок по внешнему номеру"
     else if v = "OTHER" then some "Другое" else none)
  else if key = "dtp_type" then
    (if v = "COLLISION" then some "Cтолкновение"
     else if v = "ROLLOVER" then some "Опрокидывание"
     else if v = "RUNOVER" then some "Наезд" else none)
  else if key = "brand" then
    (if v = "KIA_CEED" then some "Kia Ceed" else if v = "SITRAK" then some "Sitrak" else none)
  else if key = "yn" then
    (if v = "YES" then some "Да" else if v = "NO" then some "Нет" else none)
  else if key = "ynu" then
    (if v = "YES" then some "Да" else if v = "NO" then some "Нет"
     else if v = "UNKNOWN" then some "Неизвестно" else none)
  else none

/-- `human`: the placeholder for falsy values, otherwise the humanized
label with the raw value as fallback. -/
def human (val : Option String) (key : String) : String :=
  match val with
  | none => emptyMark
  | some v => if v = "" then emptyMark else (humanizeLookup key v).getD v

/-- `_veh_summary_line`: `Класс×n` for the positive counts, in the fixed
order, or the placeholder. -/
def _veh_summary_line (v : List (String × Int)) : String :=
  let parts := (["light", "bus", "truck", "moto"].filterMap (fun k =>
    let cnt := dictGet v k 0
    if 0 < cnt then some (vehicleName k ++ "×" ++ toString cnt) else none))
  if parts = [] then emptyMark else String.intercalate ", " parts

/-- One `label: <b>value</b>` line of the primary block (`_append`'s
falsy-value placeholder included). -/
def primaryLine (label value : String) : String :=
  label ++ ": <b>" ++ (if value = "" then emptyMark else value) ++ "</b>"

/-- `render_primary_block` as its list of lines, in source order with the
classification-dependent inclusions. -/
def primaryBlockLines (t : Ticket) : List String :=
  let is_dtp : Bool := t.incident_type == some "DTP"
  [primaryLine "Тип происшествия" (human t.incident_type "incident_type"),
   primaryLine "Откуда узнали о происшествии" (human t.incident_source "incident_source"),
   primaryLine (if is_dtp then "Дата и время ДТП" else "Время инцидента")
     (pyOrStr t.incident_time emptyMark)]
  ++ (if is_dtp then [primaryLine "Тип ДТП" (human t.dtp_type "dtp_type")] else [])
  ++ [primaryLine "Тип ТС" (human t.brand "brand"),
      primaryLine "Госномер ВАТС" (format_vats_display t.plate_vats)]
  ++ (if t.brand = some "SITRAK" then
        [primaryLine "Госномер ПП" (format_ref_display t.plate_ref)] else [])
  ++ [primaryLine "Место происшествия" (_safe_user_html t.location)]
  ++ (if is_dtp then [primaryLine "ТС, попавшие в ДТП" (_veh_summary_line t.dtp_vehicles)] else [])
  ++ (if is_dtp then [primaryLine "Повреждения" (_safe_user_html t.dtp_damage_text)] else [])
  ++ [primaryLine "ВАТС создает помехи на трассе" (human t.obstacle_on_road "ynu")]
  ++ (if !is_dtp then [primaryLine "Симптомы" (_safe_user_html t.break_symptoms)] else [])
  ++ [primaryLine "Описание проблемы" (_safe_user_html t.problem_desc),
      primaryLine "Примечания" (_safe_user_html t.notes)]

/-- `render_primary_block`: the lines joined with newlines. -/
def render_primary_block (t : Ticket) : String :=
  String.intercalate "\n" (primaryBlockLines t)

/-! ### Handler effects -/

/-- The user-visible reply a handler produces (one constructor per distinct
send/edit in the source). -/
inductive Ui where
  | ask (key : String)
  | askCounter
  | askNoSkip (key : String)
  | preview
  | message (text : String)
  | raCompleted
  | silent
  deriving Repr, DecidableEq

/-- Gateway calls a handler issues (`try_create_chat_via_userbot`). -/
inductive GatewayCall where
  | chatProvision
  deriving Repr, DecidableEq

/-- Result of one handler invocation: the new draft, the reply, and the
gateway calls made. -/
structure HandlerResult where
  draft : Draft
  ui : Ui
  gateway : List GatewayCall
  deriving Repr, DecidableEq

/-- `TEXTS["messages"]["need_main_before_ra"]`. -/
def needMainBeforeRaText : String := "Сначала создайте основную задачу (нет родителя для RA)."

/-- `TEXTS["messages"]["incident_source_other_prompt"]`. -/
def incidentSourceOtherPromptText : String := "Введите источник происшествия в свободной форме:"

/-- `TEXTS["errors"]["plate_invalid"]`. -/
def plateInvalidText : String := "❌ Неверный формат госномера ВАТС ❌"

/-- `TEXTS["errors"]["plate_ref_invalid"]`. -/
def plateRefInvalidText : String := "❌ Неверный формат госномера ПП ❌"

/-- `TEXTS["errors"]["empty_text"]`. -/
def emptyTextErrorText : String := "❌ Пустой ввод ❌"

/-- `TEXTS["jira"]["no_transitions"]`. -/
def noTransitionsText : String := "Нет доступных переходов для закрытия."

/-- `TEXTS["jira"]["need_main_issue"]`. -/
def needMainIssueText : String := "⚠️ Основная задача ещё не создана."

/-- `TEXTS["common"]["issue_closed"]`. -/
def issueClosedText : String := "✅ Заявка и таск в Jira закрыты"

/-- The prompt for a step: counter steps get the counter view, the rest the
question with their keyboard. -/
def askFor (key : String) : Ui :=
  if STEP_INPUT_KIND key = "counter" then Ui.askCounter else Ui.ask key

/-! ### Handlers (state-transition functions of `on_text` / `on_callback`) -/

/-- The state effect of `finish_ra_flow_if_needed` when its guard holds:
back to primary at step 0; the Group Provisioning Gateway's extracted chat
id is the parameter `gw` (set on the ticket only when truthy).  The
post-provisioning invite/rename/post/notify sends are best-effort side
effects outside the draft. -/
def finishRaFlow (gw : Option Int) (d : Draft) : HandlerResult :=
  let d1 := { d with mode := PRIMARY_MODE, step_idx := 0 }
  let t :=
    match gw with
    | some c => if c != 0 then { d1.ticket with ra_chat_id := some c } else d1.ticket
    | none => d1.ticket
  ⟨{ d1 with ticket := t }, Ui.raCompleted, [GatewayCall.chatProvision]⟩

/-- The `act|ra` branch of `on_callback` (entering the secondary workflow),
for a callback whose ticket id matched. -/
def onCallbackActRa (d : Draft) : HandlerResult :=
  if pyTruthyStrOpt d.ticket.jira_main = false then
    ⟨d, Ui.message needMainBeforeRaText, []⟩
  else
    let d1 := { d with mode := RA_MODE, step_idx := 0 }
    let d2 := clamp_step_idx d1
    ⟨d2, Ui.ask (current_key d1), []⟩

/-- The common tail of `on_text` after a successful store: exit editing to
the preview, otherwise preview/advance depending on position and mode. -/
def onTextAfterSet (mode : String) (d : Draft) : HandlerResult :=
  if d.editing && (mode == PRIMARY_MODE) then
    ⟨{ d with editing := false }, Ui.preview, []⟩
  else if is_last_step d then
    if mode == PRIMARY_MODE then ⟨d, Ui.preview, []⟩ else ⟨d, Ui.silent, []⟩
  else
    let d1 := goto_next_step d
    let d2 := clamp_step_idx d1
    ⟨d2, askFor (current_key d1), []⟩

/-- `on_text` (private chat, draft with a ticket): validate the free-text
answer for the current step and store it. -/
def onText (d0 : Draft) (raw : String) : HandlerResult :=
  let mode := d0.mode
  let d := clamp_step_idx d0
  let key := current_key d0
  let kind := STEP_INPUT_KIND key
  let text := pyStrip raw
  let custom := key == "incident_source" && d.incident_source_custom
  if kind = "plate" then
    match normalize_vats_plate text d.ticket.brand with
    | none => ⟨d, Ui.message plateInvalidText, []⟩
    | some norm =>
      let d1 := { d with ticket := set_field_local d.ticket key (.vstr norm) }
      if key == "plate_vats" && d1.editing && (mode == PRIMARY_MODE) &&
          (d1.ticket.brand == some "SITRAK") && !(pyTruthyStrOpt d1.ticket.plate_ref) &&
          (active_steps d1).contains "plate_ref" then
        ⟨set_step_idx d1 (listIndexOf "plate_ref" (active_steps d1)), Ui.askNoSkip "plate_ref", []⟩
      else onTextAfterSet mode d1
  else if kind = "plate_ref" then
    match normalize_ref_plate text with
    | none => ⟨d, Ui.message plateRefInvalidText, []⟩
    | some norm => onTextAfterSet mode { d with ticket := set_field_local d.ticket key (.vstr norm) }
  else if kind = "text" || custom then
    if text = "" then ⟨d, Ui.message emptyTextErrorText, []⟩
    else
      let d1 := { d with ticket := set_field_local d.ticket key (.vstr text) }
      let d2 := if custom then { d1 with incident_source_custom := false } else d1
      onTextAfterSet mode d2
  else ⟨d, Ui.silent, []⟩

/-- The last stage of the `set|field|value` branch (after the possible
cursor reset): editing exit, preview, secondary completion, or advance. -/
def onCallbackSetFinish (gw : Option Int) (field_key : String) (d3 : Draft) : HandlerResult :=
  let d4 := clamp_step_idx d3
  let was_current := current_key d3 == field_key
  let was_last := was_current && is_last_step d4
  if d4.editing && (d4.mode == PRIMARY_MODE) then
    ⟨{ d4 with editing := false }, Ui.preview, []⟩
  else if was_last && (d4.mode == PRIMARY_MODE) then ⟨d4, Ui.preview, []⟩
  else if was_last && (d4.mode == RA_MODE) then finishRaFlow gw d4
  else
    let d5 := if was_current then goto_next_step d4 else d4
    let d6 := clamp_step_idx d5
    ⟨d6, askFor (current_key d5), []⟩

/-- The tail of the `set|field|value` branch after the value is stored and
neither force-jump fired: possible cursor reset, then the last stage. -/
def onCallbackSetAdvance (gw : Option Int) (field_key : String) (d2 : Draft) : HandlerResult :=
  let d3 :=
    if field_key = "incident_type" ∨ field_key = "brand" then
      let dc := clamp_step_idx d2
      if (active_steps dc).contains (current_key d2) then dc else set_step_idx dc 0
    else d2
  onCallbackSetFinish gw field_key d3

/-- The `set|field|value` branch of `on_callback`. -/
def onCallbackSet (gw : Option Int) (d0 : Draft) (field_key value : String) : HandlerResult :=
  if field_key ∉ ALL_KNOWN_KEYS then ⟨d0, Ui.silent, []⟩
  else if field_key = "incident_source" ∧ value = INCIDENT_SOURCE_CUSTOM_VALUE then
    ⟨{ d0 with incident_source_custom := true }, Ui.message incidentSourceOtherPromptText, []⟩
  else
    let d1 := if field_key = "incident_source" then { d0 with incident_source_custom := false } else d0
    let prev_brand := if field_key = "brand" then d1.ticket.brand else none
    let t1 := set_field_local d1.ticket field_key (.vstr value)
    let brand_changed : Bool :=
      (field_key == "brand") && prev_brand.isSome && (prev_brand != some value)
    let t2 := if brand_changed then { t1 with plate_vats := none, plate_ref := none } else t1
    let d2 := { d1 with ticket := t2 }
    if (!brand_changed && d2.editing && (d2.mode == PRIMARY_MODE) && (field_key == "brand") &&
        (value == "SITRAK") && !(pyTruthyStrOpt t2.plate_ref)) &&
        (active_steps d2).contains "plate_ref" then
      ⟨set_step_idx d2 (listIndexOf "plate_ref" (active_steps d2)), Ui.askNoSkip "plate_ref", []⟩
    else if brand_changed then
      if (active_steps d2).contains "plate_vats" then
        ⟨set_step_idx d2 (listIndexOf "plate_vats" (active_steps d2)), Ui.ask "plate_vats", []⟩
      else ⟨d2, Ui.silent, []⟩
    else
      onCallbackSetAdvance gw field_key d2

/-- The `veh|action|kind` branch of `on_callback` (counter adjustments and
the explicit done). -/
def onCallbackVeh (d0 : Draft) (action kind : String) : HandlerResult :=
  if action = "plus" ∨ action = "minus" then
    let cur := dictGet d0.ticket.dtp_vehicles kind 0
    let t := { d0.ticket with
      dtp_vehicles := dictSet d0.ticket.dtp_vehicles kind
        (max 0 (cur + (if action = "plus" then 1 else -1))) }
    ⟨{ d0 with ticket := t }, Ui.askCounter, []⟩
  else if action = "done" then
    if d0.editing && (d0.mode == PRIMARY_MODE) then
      ⟨{ d0 with editing := false }, Ui.preview, []⟩
    else if is_last_step d0 && (d0.mode == PRIMARY_MODE) then
      ⟨d0, Ui.preview, []⟩
    else
      let d1 := goto_next_step d0
      let d2 := clamp_step_idx d1
      ⟨d2, askFor (current_key d1), []⟩
  else ⟨d0, Ui.silent, []⟩

/-- The ticket effect of `nav|skip|key`: empty dict for the counter field,
`None` otherwise. -/
def skipTicketField (t : Ticket) (cur_key : String) : Ticket :=
  if cur_key = "dtp_vehicles" then { t with dtp_vehicles := [] }
  else set_field_local t cur_key .vnone

/-- The `nav|skip|key` branch of `on_callback`. -/
def onCallbackNavSkip (gw : Option Int) (d0 : Draft) (cur_key : String) : HandlerResult :=
  let d1 := { d0 with ticket := skipTicketField d0.ticket cur_key }
  let d2 := if cur_key = "incident_source" then { d1 with incident_source_custom := false } else d1
  if (d2.mode == RA_MODE) && is_last_step d2 then finishRaFlow gw d2
  else if d2.editing || is_last_step d2 then ⟨d2, Ui.preview, []⟩
  else
    let d3 := goto_next_step d2
    let d4 := clamp_step_idx d3
    ⟨d4, askFor (current_key d3), []⟩

/-- The `nav|back|key` branch of `on_callback`. -/
def onCallbackNavBack (d0 : Draft) (cur_key : String) : HandlerResult :=
  if d0.editing && (d0.mode == PRIMARY_MODE) then
    ⟨{ d0 with editing := false }, Ui.preview, []⟩
  else
    let d1 := if cur_key = "incident_source" then { d0 with incident_source_custom := false } else d0
    let steps := active_steps d1
    let d2 := if steps.contains cur_key then set_step_idx d1 (listIndexOf cur_key steps - 1)
              else goto_prev_step d1
    let d3 := clamp_step_idx d2
    ⟨d3, askFor (current_key d2), []⟩

/-! ### Jira transitions and the close policy -/

/-- One parsed element of the tracker's transitions list; `toName` stands
for `tr["to"]["name"]`. -/
structure JTransition where
  id : Option String := none
  name : Option String := none
  toName : Option String := none
  deriving Repr, DecidableEq

/-- `TEXTS["jira"]["preferred_close_statuses"]`. -/
def preferred_close_statuses : List String :=
  ["Done", "Closed", "Resolve", "Resolved", "Закрыто", "Закрыть", "Готово", "Выполнено"]

/-- `name in prefs or to in prefs` with the source's `(x or "").strip()`
coalescing. -/
def transitionMatches (prefs : List String) (tr : JTransition) : Bool :=
  prefs.contains (pyStrip (tr.name.getD "")) || prefs.contains (pyStrip (tr.toName.getD ""))

/-- The selection loop of `close_issue_by_best_transition`:
first matching transition's `id` (which may itself be absent). -/
def loopBestRB : List JTransition → Option String
  | [] => none
  | tr :: rest =>
    if transitionMatches preferred_close_statuses tr then tr.id else loopBestRB rest

/-- The selection loop of `jira_close_issue` (the `jira_client.py` twin). -/
def loopBestJC : List JTransition → Option String
  | [] => none
  | tr :: rest =>
    if transitionMatches preferred_close_statuses tr then tr.id else loopBestJC rest

/-- Selection plus last-transition fallback, as in
`close_issue_by_best_transition`. -/
def selectBestTransitionRB (transitions : List JTransition) : Option String :=
  let best := loopBestRB transitions
  if pyTruthyStrOpt best = false ∧ transitions ≠ [] then
    transitions.getLast?.bind JTransition.id
  else best

/-- Selection plus last-transition fallback, as in `jira_close_issue`. -/
def selectBestTransitionJC (transitions : List JTransition) : Option String :=
  let best := loopBestJC transitions
  if pyTruthyStrOpt best = false ∧ transitions ≠ [] then
    transitions.getLast?.bind JTransition.id
  else best

/-- What the close does after selection: an early error return (no
transition call is performed) or a `jira_do_transition` with the chosen id. -/
inductive CloseOutcome where
  | errorReturn (msg : String)
  | applyTransition (id : String)
  deriving Repr, DecidableEq

/-- `close_issue_by_best_transition` in `regular_bot.py`; the parameter is
`jira_get_transitions`'s already-parsed answer `(transitions, err)` (there,
failure yields `(None, err)`). -/
def close_issue_by_best_transition
    (resp : Option (List JTransition) × Option String) : CloseOutcome :=
  match resp.1 with
  | none => CloseOutcome.errorReturn (pyOrStr resp.2 "no transitions")
  | some transitions =>
    match selectBestTransitionRB transitions with
    | some s => if s = "" then CloseOutcome.errorReturn noTransitionsText
                else CloseOutcome.applyTransition s
    | none => CloseOutcome.errorReturn noTransitionsText

/-- `jira_close_issue` in `jira_client.py`; there `jira_get_transitions`
yields `([], err)` on failure and the function returns any truthy `err`
first. -/
def jira_close_issue (resp : List JTransition × Option String) : CloseOutcome :=
  if pyTruthyStrOpt resp.2 then CloseOutcome.errorReturn (resp.2.getD "")
  else
    match selectBestTransitionJC resp.1 with
    | some s => if s = "" then CloseOutcome.errorReturn noTransitionsText
                else CloseOutcome.applyTransition s
    | none => CloseOutcome.errorReturn noTransitionsText

/-- The `act|close` branch of `on_callback`: precondition check, close, and
the final message; `applyRes` is `jira_do_transition`'s answer when a
transition is applied. -/
def onCallbackClose (resp : Option (List JTransition) × Option String)
    (applyRes : Option String) (d : Draft) : Draft × Ui :=
  if pyTruthyStrOpt d.ticket.jira_main = false then (d, Ui.message needMainIssueText)
  else
    match close_issue_by_best_transition resp with
    | CloseOutcome.errorReturn e => (d, Ui.message e)
    | CloseOutcome.applyTransition _ =>
      match applyRes with
      | some e => (d, Ui.message e)
      | none => (d, Ui.message issueClosedText)

/-! ### Derived state views, user operations, and fixed sample states -/

/-- The first transition whose name or target-status name matches the
preferred close labels (the claim's selection notion). -/
def firstMatchingTransition (ts : List JTransition) : Option JTransition :=
  ts.find? (transitionMatches preferred_close_statuses)

/-- The net ticket change a stored `set|` value leaves behind (ignoring
`ra_chat_id`, touched only by secondary completion): the field assignment
and, for a brand change, the plate invalidation. -/
def setTicketOutcome (t : Ticket) (key v : String) : Ticket :=
  let t1 := set_field_local t key (.vstr v)
  if (key == "brand") && t.brand.isSome && (t.brand != some v) then
    { t1 with plate_vats := none, plate_ref := none }
  else t1

def brandInvalidationCexDraft : Draft :=
  { ticket := { id := "c3", incident_type := some "BREAK", brand := some "KIA_CEED" },
    mode := RA_MODE, step_idx := 2 }

def brandInvalidationWitnessDraft : Draft :=
  { ticket := { id := "w3", incident_type := some "BREAK", brand := some "SITRAK",
                plate_vats := some "А123ВС77", plate_ref := some "АВ123477" },
    mode := PRIMARY_MODE, step_idx := 7 }

def editingExitCexDraft : Draft :=
  { ticket := { id := "c4", incident_type := some "BREAK", brand := some "SITRAK" },
    step_idx := 3, mode := PRIMARY_MODE, editing := true }

def editingExitWitnessDraft : Draft :=
  { ticket := { id := "w4" }, step_idx := 4, mode := PRIMARY_MODE, editing := true }

/-- The data model invariant: every stored count is non-negative (so the
lookup-with-default view is a total non-negative mapping). -/
def vehInvariant (v : List (String × Int)) : Prop := ∀ p ∈ v, 0 ≤ p.2

instance (v : List (String × Int)) : Decidable (vehInvariant v) :=
  inferInstanceAs (Decidable (∀ p ∈ v, 0 ≤ p.2))

/-- One user action, as dispatched by the handlers. -/
inductive UserOp where
  | veh (action kind : String)
  | txt (raw : String)
  | setf (field_key value : String)
  | skipf (cur_key : String)
  | back (cur_key : String)
  | actRa
  deriving Repr, DecidableEq

/-- Apply one user action to the draft (the external chat id, when
secondary completion fires, is `gw`). -/
def applyUserOp (gw : Option Int) (op : UserOp) (d : Draft) : Draft :=
  match op with
  | .veh a kind => (onCallbackVeh d a kind).draft
  | .txt raw => (onText d raw).draft
  | .setf key v => (onCallbackSet gw d key v).draft
  | .skipf k => (onCallbackNavSkip gw d k).draft
  | .back k => (onCallbackNavBack d k).draft
  | .actRa => (onCallbackActRa d).draft

/-- Spec §6 scope: a field-set intent only targets enumerated (choice)
fields; other ops are unrestricted. -/
def opEnumeratedOnly : UserOp → Prop
  | .setf key _ => STEP_INPUT_KIND key = "choice"
  | _ => True

/-! ### Basic lemmas about the embedding -/

@[simp]
theorem clamp_step_idx_ticket (d : Draft) : (clamp_step_idx d).ticket = d.ticket := by
  by_cases h : (active_steps d).length ≤ d.step_idx <;> simp [clamp_step_idx, h]

@[simp]
theorem clamp_step_idx_mode (d : Draft) : (clamp_step_idx d).mode = d.mode := by
  by_cases h : (active_steps d).length ≤ d.step_idx <;> simp [clamp_step_idx, h]

@[simp]
theorem clamp_step_idx_editing (d : Draft) : (clamp_step_idx d).editing = d.editing := by
  by_cases h : (active_steps d).length ≤ d.step_idx <;> simp [clamp_step_idx, h]

@[simp]
theorem set_step_idx_ticket (d : Draft) (i : Nat) : (set_step_idx d i).ticket = d.ticket := rfl

@[simp]
theorem set_step_idx_mode (d : Draft) (i : Nat) : (set_step_idx d i).mode = d.mode := rfl

@[simp]
theorem set_step_idx_editing (d : Draft) (i : Nat) : (set_step_idx d i).editing = d.editing := rfl

@[simp]
theorem goto_next_step_ticket (d : Draft) : (goto_next_step d).ticket = d.ticket := rfl

@[simp]
theorem goto_next_step_mode (d : Draft) : (goto_next_step d).mode = d.mode := rfl

@[simp]
theorem goto_next_step_editing (d : Draft) : (goto_next_step d).editing = d.editing := rfl

@[simp]
theorem goto_prev_step_ticket (d : Draft) : (goto_prev_step d).ticket = d.ticket := rfl

/-- Relate string dispatch back to the canonical name. -/
theorem fieldKeyOf_eq_some {key : String} {fk : FieldKey} (h : fieldKeyOf key = some fk) :
    key = fieldKeyName fk := by
  unfold fieldKeyOf at h
  by_cases h0 : key = "incident_type"
  · rw [if_pos h0] at h
    injection h with he
    subst he
    exact h0
  rw [if_neg h0] at h
  by_cases h1 : key = "incident_source"
  · rw [if_pos h1] at h
    injection h with he
    subst he
    exact h1
  rw [if_neg h1] at h
  by_cases h2 : key = "dtp_type"
  · rw [if_pos h2] at h
    injection h with he
    subst he
    exact h2
  rw [if_neg h2] at h
  by_cases h3 : key = "incident_time"
  · rw [if_pos h3] at h
    injection h with he
    subst he
    exact h3
  rw [if_neg h3] at h
  by_cases h4 : key = "brand"
  · rw [if_pos h4] at h
    injection h with he
    subst he
    exact h4
  rw [if_neg h4] at h
  by_cases h5 : key = "plate_vats"
  · rw [if_pos h5] at h
    injection h with he
    subst he
    exact h5
  rw [if_neg h5] at h
  by_cases h6 : key = "plate_ref"
  · rw [if_pos h6] at h
    injection h with he
    subst he
    exact h6
  rw [if_neg h6] at h
  by_cases h7 : key = "dtp_vehicles"
  · rw [if_pos h7] at h
    injection h with he
    subst he
    exact h7
  rw [if_neg h7] at h
  by_cases h8 : key = "location"
  · rw [if_pos h8] at h
    injection h with he
    subst he
    exact h8
  rw [if_neg h8] at h
  by_cases h9 : key = "dtp_damage_text"
  · rw [if_pos h9] at h
    injection h with he
    subst he
    exact h9
  rw [if_neg h9] at h
  by_cases h10 : key = "obstacle_on_road"
  · rw [if_pos h10] at h
    injection h with he
    subst he
    exact h10
  rw [if_neg h10] at h
  by_cases h11 : key = "break_symptoms"
  · rw [if_pos h11] at h
    injection h with he
    subst he
    exact h11
  rw [if_neg h11] at h
  by_cases h12 : key = "problem_desc"
  · rw [if_pos h12] at h
    injection h with he
    subst he
    exact h12
  rw [if_neg h12] at h
  by_cases h13 : key = "notes"
  · rw [if_pos h13] at h
    injection h with he
    subst he
    exact h13
  rw [if_neg h13] at h
  by_cases h14 : key = "jira_main"
  · rw [if_pos h14] at h
    injection h with he
    subst he
    exact h14
  rw [if_neg h14] at h
  by_cases h15 : key = "ra_need_dtp_formalization"
  · rw [if_pos h15] at h
    injection h with he
    subst he
    exact h15
  rw [if_neg h15] at h
  by_cases h16 : key = "ra_need_diagnosis"
  · rw [if_pos h16] at h
    injection h with he
    subst he
    exact h16
  rw [if_neg h16] at h
  by_cases h17 : key = "ra_need_repair"
  · rw [if_pos h17] at h
    injection h with he
    subst he
    exact h17
  rw [if_neg h17] at h
  by_cases h18 : key = "ra_need_evacuation"
  · rw [if_pos h18] at h
    injection h with he
    subst he
    exact h18
  rw [if_neg h18] at h
  by_cases h19 : key = "ra_called_112"
  · rw [if_pos h19] at h
    injection h with he
    subst he
    exact h19
  rw [if_neg h19] at h
  exact Option.noConfusion h

@[simp]
theorem fieldKeyOf_name (fk : FieldKey) : fieldKeyOf (fieldKeyName fk) = some fk := by
  cases fk <;> rfl

theorem set_field_local_dtp_vehicles (t : Ticket) (key : String) (v : FieldVal) :
    (set_field_local t key v).dtp_vehicles =
      if key = "dtp_vehicles" then [] else t.dtp_vehicles := by
  unfold set_field_local
  cases h : fieldKeyOf key with
  | none =>
    rw [if_neg]
    intro hk
    rw [hk] at h
    exact Option.noConfusion h
  | some fk =>
    have hk := fieldKeyOf_eq_some h
    subst hk
    cases fk <;> simp [setTicketField, fieldKeyName]

theorem set_field_local_plate_vats (t : Ticket) (key : String) (v : FieldVal) :
    (set_field_local t key v).plate_vats =
      if key = "plate_vats" then (match v with | .vnone => none | .vstr s => some s)
      else t.plate_vats := by
  unfold set_field_local
  cases h : fieldKeyOf key with
  | none =>
    rw [if_neg]
    intro hk
    rw [hk] at h
    exact Option.noConfusion h
  | some fk =>
    have hk := fieldKeyOf_eq_some h
    subst hk
    cases fk <;> simp [setTicketField, fieldKeyName]

theorem set_field_local_plate_ref (t : Ticket) (key : String) (v : FieldVal) :
    (set_field_local t key v).plate_ref =
      if key = "plate_ref" then (match v with | .vnone => none | .vstr s => some s)
      else t.plate_ref := by
  unfold set_field_local
  cases h : fieldKeyOf key with
  | none =>
    rw [if_neg]
    intro hk
    rw [hk] at h
    exact Option.noConfusion h
  | some fk =>
    have hk := fieldKeyOf_eq_some h
    subst hk
    cases fk <;> simp [setTicketField, fieldKeyName]

theorem set_field_local_brand (t : Ticket) (key : String) (v : FieldVal) :
    (set_field_local t key v).brand =
      if key = "brand" then (match v with | .vnone => none | .vstr s => some s)
      else t.brand := by
  unfold set_field_local
  cases h : fieldKeyOf key with
  | none =>
    rw [if_neg]
    intro hk
    rw [hk] at h
    exact Option.noConfusion h
  | some fk =>
    have hk := fieldKeyOf_eq_some h
    subst hk
    cases fk <;> simp [setTicketField, fieldKeyName]

/-! dict lemmas -/

theorem dictGet_cons_of_ne (p : String × Int) (v : List (String × Int)) (k : String)
    (dflt : Int) (h : ¬ p.1 = k) :
    dictGet (p :: v) k dflt = dictGet v k dflt := by
  unfold dictGet
  rw [List.find?_cons_of_neg _ (by simpa using h)]

theorem find?_map_update (v : List (String × Int)) (k : String) (x : Int)
    (h : v.any (fun p => p.1 == k) = true) :
    (v.map (fun p => if p.1 == k then (p.1, x) else p)).find? (fun p => p.1 == k)
      = some (k, x) := by
  induction v with
  | nil => simp at h
  | cons p t ih =>
    by_cases hk : p.1 = k
    · subst hk
      simp [List.find?]
    · have hb : (p.1 == k) = false := by simpa using hk
      simp only [List.any_cons, hb, Bool.false_or] at h
      simp only [List.map_cons, hb, Bool.false_eq_true, if_false]
      rw [List.find?_cons_of_neg _ (by simpa using hk)]
      exact ih h

theorem dictGet_append_single (v : List (String × Int)) (k : String) (x : Int)
    (h : v.any (fun p => p.1 == k) = false) :
    dictGet (v ++ [(k, x)]) k 0 = x := by
  induction v with
  | nil => simp [dictGet, List.find?]
  | cons p t ih =>
    have h1 : (p.1 == k) = false ∧ t.any (fun p => p.1 == k) = false := by
      constructor
      · cases hb : (p.1 == k) with
        | false => rfl
        | true => rw [List.any_cons, hb, Bool.true_or] at h; exact Bool.noConfusion h
      · cases hb : t.any (fun p => p.1 == k) with
        | false => rfl
        | true => rw [List.any_cons, hb, Bool.or_true] at h; exact Bool.noConfusion h
    rw [List.cons_append, dictGet_cons_of_ne _ _ _ _ (by simpa using h1.1)]
    exact ih h1.2

theorem dictGet_dictSet_self (v : List (String × Int)) (k : String) (x : Int) :
    dictGet (dictSet v k x) k 0 = x := by
  unfold dictSet
  split
  · rename_i h
    unfold dictGet
    rw [find?_map_update v k x h]
  · rename_i h
    refine dictGet_append_single v k x ?_
    cases hb : v.any (fun p => p.1 == k) with
    | false => rfl
    | true => exact absurd hb h

/-- Values stored by `dictSet` stay in bounds. -/
theorem dictSet_nonneg (v : List (String × Int)) (k : String) (x : Int)
    (hv : ∀ p ∈ v, 0 ≤ p.2) (hx : 0 ≤ x) :
    ∀ p ∈ dictSet v k x, 0 ≤ p.2 := by
  unfold dictSet
  split
  · intro p hp
    rcases List.mem_map.mp hp with ⟨q, hq, rfl⟩
    by_cases h : (q.1 == k) = true
    · simp [h, hx]
    · simp only [h]
      simpa using hv q hq
  · intro p hp
    rcases List.mem_append.mp hp with h | h
    · exact hv p h
    · simp only [List.mem_singleton] at h
      simp [h, hx]

theorem dictGet_nonneg (v : List (String × Int)) (k : String)
    (hv : ∀ p ∈ v, 0 ≤ p.2) : 0 ≤ dictGet v k 0 := by
  unfold dictGet
  cases hfind : v.find? (fun p => p.1 == k) with
  | none => simp
  | some p => exact hv p (List.mem_of_find?_eq_some hfind)

/-! list index lemmas -/

theorem listIndexOf_lt_length [DecidableEq α] {x : α} {l : List α} (h : x ∈ l) :
    listIndexOf x l < l.length := by
  induction l with
  | nil => cases h
  | cons y t ih =>
    by_cases hy : y = x
    · simp [listIndexOf, hy]
    · rcases List.mem_cons.mp h with h' | h'
      · exact absurd h'.symm hy
      · simpa [listIndexOf, hy] using ih h'

theorem getD_listIndexOf [DecidableEq α] {x : α} {l : List α} (dflt : α) (h : x ∈ l) :
    l.getD (listIndexOf x l) dflt = x := by
  induction l with
  | nil => cases h
  | cons y t ih =>
    by_cases hy : y = x
    · simp [listIndexOf, hy]
    · rcases List.mem_cons.mp h with h' | h'
      · exact absurd h'.symm hy
      · simpa [listIndexOf, hy] using ih h'

/-- The four concrete values of the primary step catalog. -/
theorem steps_for_primary_eq (t : Ticket) :
    _steps_for_primary (some t) =
      if t.incident_type = some "DTP" then
        (if t.brand = some "SITRAK" then
          ["incident_type", "incident_source", "dtp_type", "brand", "plate_vats", "plate_ref",
           "dtp_vehicles", "location", "dtp_damage_text", "problem_desc", "obstacle_on_road",
           "notes"]
         else
          ["incident_type", "incident_source", "dtp_type", "brand", "plate_vats",
           "dtp_vehicles", "location", "dtp_damage_text", "problem_desc", "obstacle_on_road",
           "notes"])
      else
        (if t.brand = some "SITRAK" then
          ["incident_type", "incident_source", "brand", "plate_vats", "plate_ref", "location",
           "break_symptoms", "problem_desc", "obstacle_on_road", "notes"]
         else
          ["incident_type", "incident_source", "brand", "plate_vats", "location",
           "break_symptoms", "problem_desc", "obstacle_on_road", "notes"]) := by
  by_cases hd : t.incident_type = some "DTP" <;>
    by_cases hb : t.brand = some "SITRAK" <;>
      simp [_steps_for_primary, maybeAddPlateRef, listInsertPy, listIndexOf, hd, hb,
        beq_iff_eq]

/-- The two concrete values of the secondary step catalog. -/
theorem steps_for_ra_eq (t : Ticket) :
    _steps_for_ra (some t) =
      if t.incident_type = some "DTP" then
        ["ra_need_dtp_formalization", "ra_need_diagnosis", "ra_need_repair",
         "ra_need_evacuation", "ra_called_112"]
      else
        ["ra_need_diagnosis", "ra_need_repair", "ra_need_evacuation"] := by
  by_cases hd : t.incident_type = some "DTP" <;> simp [_steps_for_ra, hd, beq_iff_eq]

/-- `plate_vats` belongs to every primary step list. -/
theorem plate_vats_mem_primary (t : Ticket) : "plate_vats" ∈ _steps_for_primary (some t) := by
  rw [steps_for_primary_eq]
  split <;> split <;> simp

/-- `plate_ref` belongs to the primary step list exactly for brand SITRAK. -/
theorem plate_ref_mem_primary (t : Ticket) :
    "plate_ref" ∈ _steps_for_primary (some t) ↔ t.brand = some "SITRAK" := by
  rw [steps_for_primary_eq]
  by_cases hd : t.incident_type = some "DTP" <;>
    by_cases hb : t.brand = some "SITRAK" <;>
      simp [hd, hb]

/-! ### C1: the primary step catalog -/

/-- C1: the primary-mode step catalog is a pure function (identical ticket
state gives an identical ordered list); the list contains `plate_ref` iff
the brand is SITRAK; and when present, `plate_ref` sits immediately after
`plate_vats`, in the DTP branch and in the non-DTP branch alike. -/
theorem primary_steps_catalog_c1 (t₁ t₂ : Ticket) :
    (t₁ = t₂ → _steps_for_primary (some t₁) = _steps_for_primary (some t₂)) ∧
    ("plate_ref" ∈ _steps_for_primary (some t₁) ↔ t₁.brand = some "SITRAK") ∧
    (t₁.brand = some "SITRAK" →
      ∃ l r, _steps_for_primary (some t₁) = l ++ "plate_vats" :: "plate_ref" :: r) := by
  refine ⟨fun h => by rw [h], plate_ref_mem_primary t₁, fun hb => ?_⟩
  rw [steps_for_primary_eq]
  by_cases hd : t₁.incident_type = some "DTP"
  · rw [if_pos hd, if_pos hb]
    exact ⟨["incident_type", "incident_source", "dtp_type", "brand"],
      ["dtp_vehicles", "location", "dtp_damage_text", "problem_desc", "obstacle_on_road",
       "notes"], rfl⟩
  · rw [if_neg hd, if_pos hb]
    exact ⟨["incident_type", "incident_source", "brand"],
      ["location", "break_symptoms", "problem_desc", "obstacle_on_road", "notes"], rfl⟩

theorem primary_steps_catalog_c1_witness :
    (({ id := "w1", incident_type := some "DTP", brand := some "SITRAK" } : Ticket)
        = { id := "w1", incident_type := some "DTP", brand := some "SITRAK" }) ∧
    ("plate_ref" ∈ _steps_for_primary
        (some { id := "w1", incident_type := some "DTP", brand := some "SITRAK" })) ∧
    (∃ l r, _steps_for_primary
        (some { id := "w1", incident_type := some "DTP", brand := some "SITRAK" })
        = l ++ "plate_vats" :: "plate_ref" :: r) :=
  ⟨rfl,
   (primary_steps_catalog_c1 _ { id := "w1", incident_type := some "DTP", brand := some "SITRAK" }).2.1.mpr rfl,
   (primary_steps_catalog_c1 _ { id := "w1", incident_type := some "DTP", brand := some "SITRAK" }).2.2 rfl⟩

/-! ### C2: entering the secondary workflow requires the tracker issue -/

/-- C2: the `act|ra` action with no tracker issue key set is rejected with
the fixed message, the draft (ticket, cursor, mode, editing flag) is
returned completely unchanged, and no gateway call is issued. -/
theorem ra_entry_precondition_c2 (d : Draft) (h : d.ticket.jira_main = none) :
    onCallbackActRa d = ⟨d, Ui.message needMainBeforeRaText, []⟩ := by
  unfold onCallbackActRa
  rw [if_pos (by simp [pyTruthyStrOpt, h])]

theorem ra_entry_precondition_c2_witness :
    ({ ticket := { id := "w2" }, step_idx := 3, editing := true } : Draft).ticket.jira_main = none ∧
    onCallbackActRa { ticket := { id := "w2" }, step_idx := 3, editing := true }
      = ⟨{ ticket := { id := "w2" }, step_idx := 3, editing := true },
         Ui.message needMainBeforeRaText, []⟩ :=
  ⟨rfl, ra_entry_precondition_c2 _ rfl⟩

/-! ### C7: the vehicle counter -/

/-- C7: from the empty mapping, three increments and a decrement on one
class leave it at 2; an increment on a non-negative count adds exactly 1;
a decrement subtracts 1 clamped at 0 and never goes negative. -/
theorem vehicle_counter_c7 (d : Draft) (k : String) :
    (d.ticket.dtp_vehicles = [] →
      dictGet ((onCallbackVeh ((onCallbackVeh ((onCallbackVeh ((onCallbackVeh d
          "plus" k).draft) "plus" k).draft) "plus" k).draft) "minus" k).draft.ticket.dtp_vehicles)
        k 0 = 2) ∧
    (0 ≤ dictGet d.ticket.dtp_vehicles k 0 →
      dictGet ((onCallbackVeh d "plus" k).draft.ticket.dtp_vehicles) k 0
        = dictGet d.ticket.dtp_vehicles k 0 + 1) ∧
    (0 ≤ dictGet d.ticket.dtp_vehicles k 0 →
      dictGet ((onCallbackVeh d "minus" k).draft.ticket.dtp_vehicles) k 0
        = max 0 (dictGet d.ticket.dtp_vehicles k 0 - 1) ∧
      0 ≤ dictGet ((onCallbackVeh d "minus" k).draft.ticket.dtp_vehicles) k 0) := by
  have hplus : ∀ (e : Draft) (k2 : String), (onCallbackVeh e "plus" k2).draft.ticket.dtp_vehicles
      = dictSet e.ticket.dtp_vehicles k2 (max 0 (dictGet e.ticket.dtp_vehicles k2 0 + 1)) :=
    fun e k2 => rfl
  have hminus : ∀ (e : Draft) (k2 : String), (onCallbackVeh e "minus" k2).draft.ticket.dtp_vehicles
      = dictSet e.ticket.dtp_vehicles k2 (max 0 (dictGet e.ticket.dtp_vehicles k2 0 + -1)) :=
    fun e k2 => rfl
  have hnil : ∀ (k2 : String), dictGet [] k2 0 = 0 := fun k2 => rfl
  refine ⟨fun h0 => ?_, fun hp => ?_, fun hm => ?_⟩
  · simp only [hminus, hplus, h0, hnil, dictGet_dictSet_self]
    decide
  · rw [hplus, dictGet_dictSet_self, max_eq_right (by omega)]
  · rw [hminus, dictGet_dictSet_self]
    exact ⟨by rw [sub_eq_add_neg], le_max_left 0 _⟩

theorem vehicle_counter_c7_witness :
    (({ ticket := { id := "w7" } } : Draft).ticket.dtp_vehicles = [] ∧
      dictGet ((onCallbackVeh ((onCallbackVeh ((onCallbackVeh ((onCallbackVeh
          ({ ticket := { id := "w7" } } : Draft)
          "plus" "truck").draft) "plus" "truck").draft) "plus" "truck").draft)
          "minus" "truck").draft.ticket.dtp_vehicles) "truck" 0 = 2) ∧
    dictGet ((onCallbackVeh ({ ticket := { id := "w7" } } : Draft)
        "minus" "truck").draft.ticket.dtp_vehicles) "truck" 0
      = max 0 (dictGet ({ ticket := { id := "w7" } } : Draft).ticket.dtp_vehicles "truck" 0 - 1) :=
  ⟨⟨rfl, (vehicle_counter_c7 { ticket := { id := "w7" } } "truck").1 rfl⟩,
   ((vehicle_counter_c7 { ticket := { id := "w7" } } "truck").2.2 (by decide)).1⟩

/-! ### C8: skip is idempotent and neutral -/

/-- C8: skipping a field twice leaves the same ticket as skipping once;
the skip value is the empty mapping for `dtp_vehicles` and `None` for every
other known field. -/
theorem skip_idempotent_c8 (t : Ticket) (key : String) :
    skipTicketField (skipTicketField t key) key = skipTicketField t key ∧
    (skipTicketField t "dtp_vehicles").dtp_vehicles = [] ∧
    (key ∈ ALL_KNOWN_KEYS → key ≠ "dtp_vehicles" →
      get_field_str (skipTicketField t key) key = none) := by
  refine ⟨?_, rfl, fun hmem hne => ?_⟩
  · by_cases hdv : key = "dtp_vehicles"
    · simp [skipTicketField, hdv]
    · simp only [skipTicketField, if_neg hdv]
      unfold set_field_local
      cases h : fieldKeyOf key with
      | none => rfl
      | some fk => cases fk <;> rfl
  · simp only [ALL_KNOWN_KEYS, List.mem_cons, List.not_mem_nil, or_false] at hmem
    rcases hmem with rfl | rfl | rfl | rfl | rfl | rfl | rfl | rfl | rfl | rfl | rfl | rfl | rfl |
      rfl | rfl | rfl | rfl | rfl | rfl
    all_goals first
      | exact absurd rfl hne
      | rfl

theorem skip_idempotent_c8_witness :
    skipTicketField (skipTicketField { id := "w8", notes := some "n" } "notes") "notes"
        = skipTicketField { id := "w8", notes := some "n" } "notes" ∧
    "notes" ∈ ALL_KNOWN_KEYS ∧
    get_field_str (skipTicketField { id := "w8", notes := some "n" } "notes") "notes" = none :=
  ⟨(skip_idempotent_c8 { id := "w8", notes := some "n" } "notes").1, by decide,
   (skip_idempotent_c8 { id := "w8", notes := some "n" } "notes").2.2 (by decide) (by decide)⟩

/-! ### C10: the two close implementations select the same transition -/

/-- C10: the transition-selection logic of `close_issue_by_best_transition`
(`regular_bot.py`) and of `jira_close_issue` (`jira_client.py`) is
equivalent: same selected id on every transitions list, and the same close
outcome on a successfully fetched list. -/
theorem close_selection_equiv_c10 (ts : List JTransition) :
    selectBestTransitionRB ts = selectBestTransitionJC ts ∧
    close_issue_by_best_transition (some ts, none) = jira_close_issue (ts, none) := by
  have hl : loopBestRB ts = loopBestJC ts := by
    induction ts with
    | nil => rfl
    | cons tr rest ih => simp only [loopBestRB, loopBestJC, ih]
  have hsel : selectBestTransitionRB ts = selectBestTransitionJC ts := by
    simp only [selectBestTransitionRB, selectBestTransitionJC, hl]
  refine ⟨hsel, ?_⟩
  simp only [close_issue_by_best_transition, jira_close_issue, hsel]
  rfl

/-! ### C5: the close policy -/

theorem loopBestRB_eq_find (ts : List JTransition) :
    loopBestRB ts = (firstMatchingTransition ts).bind JTransition.id := by
  induction ts with
  | nil => rfl
  | cons tr rest ih =>
    cases hb : transitionMatches preferred_close_statuses tr with
    | true =>
      rw [firstMatchingTransition, List.find?_cons_of_pos _ hb]
      simp [loopBestRB, hb]
    | false =>
      rw [firstMatchingTransition, List.find?_cons_of_neg _ (by simp [hb])]
      simp only [loopBestRB, hb, Bool.false_eq_true, if_false]
      exact ih

theorem string_truthy_of_ne {s : String} (h : s ≠ "") : (s != "") = true := by
  simpa [bne_iff_ne] using h

/-- C5 counterexample: when the first matching transition carries no id,
the close falls back to the LAST transition's id rather than selecting the
first match as the claim states. -/
theorem close_policy_c5_counterexample :
    close_issue_by_best_transition
        (some [{ id := none, name := some "Done", toName := none },
               { id := some "9", name := some "Foo", toName := none }], none)
      = CloseOutcome.applyTransition "9" ∧
    firstMatchingTransition
        [{ id := none, name := some "Done", toName := none },
         { id := some "9", name := some "Foo", toName := none }]
      = some { id := none, name := some "Done", toName := none } ∧
    ({ id := none, name := some "Done", toName := none } : JTransition).id ≠ some "9" := by
  refine ⟨by decide, by decide, by decide⟩

/-- C5 (amended): the close selects the first transition matching the
done-equivalent label set provided it carries a truthy id; if no transition
matches (or the match has no truthy id) it falls back to the last listed
transition's id, failing with the distinct no-transitions error when that
is also missing or empty; an empty list yields the no-transitions error
with no transition call; and the close handler never mutates the draft. -/
theorem close_policy_c5 (ts : List JTransition) :
    (ts = [] →
      close_issue_by_best_transition (some ts, none)
        = CloseOutcome.errorReturn noTransitionsText) ∧
    (∀ tr s, firstMatchingTransition ts = some tr → tr.id = some s → s ≠ "" →
      close_issue_by_best_transition (some ts, none) = CloseOutcome.applyTransition s) ∧
    (pyTruthyStrOpt ((firstMatchingTransition ts).bind JTransition.id) = false → ts ≠ [] →
      close_issue_by_best_transition (some ts, none) =
        (match ts.getLast?.bind JTransition.id with
         | some s =>
           if s = "" then CloseOutcome.errorReturn noTransitionsText
           else CloseOutcome.applyTransition s
         | none => CloseOutcome.errorReturn noTransitionsText)) ∧
    (∀ (d : Draft) (resp : Option (List JTransition) × Option String)
        (applyRes : Option String), (onCallbackClose resp applyRes d).1 = d) := by
  refine ⟨fun he => by subst he; rfl, fun tr s hfind hid hne => ?_, fun hfalsy hne => ?_,
    fun d resp applyRes => ?_⟩
  · have hloop : loopBestRB ts = some s := by
      rw [loopBestRB_eq_find, hfind]
      simpa using hid
    have hsel : selectBestTransitionRB ts = some s := by
      simp only [selectBestTransitionRB, hloop]
      rw [if_neg]
      rintro ⟨hfalse, -⟩
      rw [show pyTruthyStrOpt (some s) = (s != "") from rfl, string_truthy_of_ne hne] at hfalse
      exact Bool.noConfusion hfalse
    simp only [close_issue_by_best_transition, hsel]
    rw [if_neg hne]
  · have hloop : pyTruthyStrOpt (loopBestRB ts) = false := by
      rw [loopBestRB_eq_find]; exact hfalsy
    simp only [close_issue_by_best_transition, selectBestTransitionRB,
      if_pos (And.intro hloop hne)]
  · unfold onCallbackClose
    split
    · rfl
    · split
      · rfl
      · split <;> rfl

/-! ### Structure of the `set|` handler -/

@[simp]
theorem ite_draft_ticket (c : Prop) [Decidable c] (a b : Draft) :
    (if c then a else b).ticket = if c then a.ticket else b.ticket :=
  apply_ite Draft.ticket c a b

@[simp]
theorem ite_draft_mode (c : Prop) [Decidable c] (a b : Draft) :
    (if c then a else b).mode = if c then a.mode else b.mode :=
  apply_ite Draft.mode c a b

@[simp]
theorem ite_draft_editing (c : Prop) [Decidable c] (a b : Draft) :
    (if c then a else b).editing = if c then a.editing else b.editing :=
  apply_ite Draft.editing c a b

theorem finishRaFlow_draft_ticket (gw : Option Int) (d : Draft) :
    ∃ rc, (finishRaFlow gw d).draft.ticket = { d.ticket with ra_chat_id := rc } := by
  cases gw with
  | none => exact ⟨d.ticket.ra_chat_id, rfl⟩
  | some c =>
    by_cases hc : (c != 0) = true
    · exact ⟨some c, by simp [finishRaFlow, hc]⟩
    · exact ⟨d.ticket.ra_chat_id, by simp [finishRaFlow, hc]⟩

theorem finishRa_shape_helper (gw : Option Int) (X : Draft) (base : Ticket)
    (hX : X.ticket = base) :
    ∃ rc, (finishRaFlow gw X).draft.ticket = { base with ra_chat_id := rc } := by
  obtain ⟨rc, hrc⟩ := finishRaFlow_draft_ticket gw X
  exact ⟨rc, by rw [hrc, hX]⟩

theorem onCallbackSetFinish_ticket (gw : Option Int) (key : String) (d3 : Draft) :
    (onCallbackSetFinish gw key d3).draft.ticket = d3.ticket ∨
    ∃ rc, (onCallbackSetFinish gw key d3).draft.ticket
        = { d3.ticket with ra_chat_id := rc } := by
  unfold onCallbackSetFinish
  dsimp only
  repeat' split
  all_goals
    first
      | exact Or.inl (by simp)
      | exact Or.inr (finishRa_shape_helper gw _ _ (by simp))

theorem onCallbackSetAdvance_d3_ticket (key : String) (d2 : Draft) :
    (if key = "incident_type" ∨ key = "brand" then
      (if (active_steps (clamp_step_idx d2)).contains (current_key d2)
       then clamp_step_idx d2 else set_step_idx (clamp_step_idx d2) 0)
     else d2).ticket = d2.ticket := by
  split
  · split <;> simp
  · rfl

theorem onCallbackSetAdvance_ticket (gw : Option Int) (key : String) (d2 : Draft) :
    (onCallbackSetAdvance gw key d2).draft.ticket = d2.ticket ∨
    ∃ rc, (onCallbackSetAdvance gw key d2).draft.ticket
        = { d2.ticket with ra_chat_id := rc } := by
  unfold onCallbackSetAdvance
  rcases onCallbackSetFinish_ticket gw key
      (if key = "incident_type" ∨ key = "brand" then
        (if (active_steps (clamp_step_idx d2)).contains (current_key d2)
         then clamp_step_idx d2 else set_step_idx (clamp_step_idx d2) 0)
       else d2) with h | ⟨rc, h⟩
  · exact Or.inl (by rw [h, onCallbackSetAdvance_d3_ticket])
  · exact Or.inr ⟨rc, by rw [h, onCallbackSetAdvance_d3_ticket]⟩

theorem onCallbackSetFinish_editing_exit (gw : Option Int) (key : String) (d3 : Draft)
    (he : d3.editing = true) (hm : d3.mode = PRIMARY_MODE) :
    (onCallbackSetFinish gw key d3).draft.editing = false ∧
    (onCallbackSetFinish gw key d3).ui = Ui.preview := by
  unfold onCallbackSetFinish
  dsimp only
  split
  · exact ⟨rfl, rfl⟩
  · rename_i hcond
    exfalso
    apply hcond
    simp [he, hm]

theorem onCallbackSetAdvance_editing_exit (gw : Option Int) (key : String) (d2 : Draft)
    (he : d2.editing = true) (hm : d2.mode = PRIMARY_MODE) :
    (onCallbackSetAdvance gw key d2).draft.editing = false ∧
    (onCallbackSetAdvance gw key d2).ui = Ui.preview := by
  unfold onCallbackSetAdvance
  refine onCallbackSetFinish_editing_exit gw key _ ?_ ?_
  · split
    · dsimp only
      split <;> simp [he]
    · exact he
  · split
    · dsimp only
      split <;> simp [hm]
    · exact hm

theorem hbc_eq_aux (key v : String) (t : Ticket) :
    (key == "brand" && (if key = "brand" then t.brand else none).isSome &&
      ((if key = "brand" then t.brand else none) != some v))
    = (key == "brand" && t.brand.isSome && (t.brand != some v)) := by
  by_cases hk : key = "brand"
  · simp [hk]
  · have hb : (key == "brand") = false := by simpa using hk
    simp [hb]

set_option maxHeartbeats 800000 in
/-- Every `set|` invocation leaves the ticket either untouched (unknown key
or custom-source prompt) or equal to `setTicketOutcome` up to `ra_chat_id`
(which only secondary completion rewrites). -/
theorem onCallbackSet_ticket_shape (gw : Option Int) (d : Draft) (key v : String) :
    (onCallbackSet gw d key v).draft.ticket = d.ticket ∨
    ∃ rc, (onCallbackSet gw d key v).draft.ticket
        = { setTicketOutcome d.ticket key v with ra_chat_id := rc } := by
  unfold onCallbackSet
  split
  · exact Or.inl rfl
  split
  · exact Or.inl rfl
  split <;> dsimp only <;>
  · simp only [hbc_eq_aux key v d.ticket]
    by_cases hbc : (key == "brand" && d.ticket.brand.isSome && (d.ticket.brand != some v)) = true
    · simp only [hbc, Bool.not_true, Bool.false_and, Bool.false_eq_true, if_false, if_true]
      split
      · exact Or.inr ⟨(set_field_local d.ticket key (.vstr v)).ra_chat_id,
          by simp [setTicketOutcome, hbc]⟩
      · exact Or.inr ⟨(set_field_local d.ticket key (.vstr v)).ra_chat_id,
          by simp [setTicketOutcome, hbc]⟩
    · have hbf : (key == "brand" && d.ticket.brand.isSome && (d.ticket.brand != some v)) = false :=
        Bool.not_eq_true _ ▸ (by simpa using hbc)
      simp only [hbf, Bool.not_false, Bool.true_and, Bool.false_eq_true, if_false]
      split
      · exact Or.inr ⟨(set_field_local d.ticket key (.vstr v)).ra_chat_id,
          by simp [setTicketOutcome, hbf]⟩
      · rcases onCallbackSetAdvance_ticket gw key _ with h | ⟨rc, h⟩
        · exact Or.inr ⟨(set_field_local d.ticket key (.vstr v)).ra_chat_id,
            by rw [h]; simp [setTicketOutcome, hbf]⟩
        · exact Or.inr ⟨rc, by rw [h]; simp [setTicketOutcome, hbf]⟩

/-! ### C3: brand change invalidates the plates -/

theorem contains_of_mem {a : String} {l : List String} (h : a ∈ l) : l.contains a = true :=
  List.elem_eq_true_of_mem h

@[simp]
theorem active_steps_set_step_idx (d : Draft) (i : Nat) :
    active_steps (set_step_idx d i) = active_steps d := rfl

@[simp]
theorem active_steps_clamp_step_idx (d : Draft) :
    active_steps (clamp_step_idx d) = active_steps d := by
  unfold clamp_step_idx
  dsimp only
  split <;> rfl

/-- After a jump to the primary-plate step of a primary-mode draft, the
cursor denotes exactly that step. -/
theorem cursor_at_plate_vats_helper (D : Draft) (hm : D.mode = PRIMARY_MODE) :
    (active_steps (set_step_idx D (listIndexOf "plate_vats" (active_steps D)))).getD
      (set_step_idx D (listIndexOf "plate_vats" (active_steps D))).step_idx "" = "plate_vats" := by
  have hmem : "plate_vats" ∈ active_steps D := by
    unfold active_steps
    rw [if_pos hm]
    exact plate_vats_mem_primary _
  have hlt := listIndexOf_lt_length hmem
  have hidx : (set_step_idx D (listIndexOf "plate_vats" (active_steps D))).step_idx
      = listIndexOf "plate_vats" (active_steps D) := by
    unfold set_step_idx
    dsimp only
    omega
  rw [active_steps_set_step_idx, hidx]
  exact getD_listIndexOf "" hmem

/-- The primary block does not depend on `plate_ref` for a non-SITRAK
brand. -/
theorem primary_lines_plate_ref_indep (t : Ticket) (x : Option String)
    (hb : ¬ t.brand = some "SITRAK") :
    primaryBlockLines { t with plate_ref := x } = primaryBlockLines t := by
  simp [primaryBlockLines, hb]

theorem brandChanged_false_of_not (d : Draft) (key v : String)
    (h : ¬(key = "brand" ∧ d.ticket.brand ≠ none ∧ d.ticket.brand ≠ some v)) :
    (key == "brand" && d.ticket.brand.isSome && (d.ticket.brand != some v)) = false := by
  by_cases hk : key = "brand"
  · subst hk
    cases hb : d.ticket.brand with
    | none => simp
    | some b =>
      by_cases hv : b = v
      · simp [hv]
      · exact absurd ⟨rfl, by simp [hb], by simp [hb, hv]⟩ h
  · simp [show (key == "brand") = false from by simpa using hk]

theorem setTicketOutcome_plates_of_not (t : Ticket) (key v : String)
    (h : (key == "brand" && t.brand.isSome && (t.brand != some v)) = false) :
    (setTicketOutcome t key v).plate_vats = (if key = "plate_vats" then some v else t.plate_vats) ∧
    (setTicketOutcome t key v).plate_ref = (if key = "plate_ref" then some v else t.plate_ref) := by
  constructor
  · rw [show (setTicketOutcome t key v).plate_vats
        = (set_field_local t key (.vstr v)).plate_vats from by simp [setTicketOutcome, h]]
    rw [set_field_local_plate_vats]
  · rw [show (setTicketOutcome t key v).plate_ref
        = (set_field_local t key (.vstr v)).plate_ref from by simp [setTicketOutcome, h]]
    rw [set_field_local_plate_ref]

/-- The `set|brand|v` branch when the brand value actually changes: clear
both plates and, when the recomputed step list has the primary-plate step,
jump the cursor to it. -/
theorem onCallbackSet_brand_changed (gw : Option Int) (d : Draft) (v b₀ : String)
    (hb0 : d.ticket.brand = some b₀) (hvne : b₀ ≠ v) :
    onCallbackSet gw d "brand" v =
      (if (active_steps { d with ticket :=
            { set_field_local d.ticket "brand" (.vstr v) with
              plate_vats := none, plate_ref := none } }).contains "plate_vats" then
        ⟨set_step_idx { d with ticket :=
            { set_field_local d.ticket "brand" (.vstr v) with
              plate_vats := none, plate_ref := none } }
          (listIndexOf "plate_vats" (active_steps { d with ticket :=
            { set_field_local d.ticket "brand" (.vstr v) with
              plate_vats := none, plate_ref := none } })),
         Ui.ask "plate_vats", []⟩
       else ⟨{ d with ticket :=
            { set_field_local d.ticket "brand" (.vstr v) with
              plate_vats := none, plate_ref := none } }, Ui.silent, []⟩) := by
  unfold onCallbackSet
  rw [if_neg (by decide : ¬(("brand" : String) ∉ ALL_KNOWN_KEYS))]
  rw [if_neg (by rintro ⟨hcon, -⟩; exact absurd hcon (by decide))]
  rw [if_neg (by decide : ¬(("brand" : String) = "incident_source"))]
  dsimp only
  have hbc : (("brand" : String) == "brand"
      && d.ticket.brand.isSome && (d.ticket.brand != some v)) = true := by
    simp [hb0, hvne]
  simp only [hbc, Bool.not_true, Bool.false_and, Bool.false_eq_true, if_false, if_true]

/-- C3 counterexample: a brand change processed while the session is in the
secondary (RA) mode clears the plates but does NOT move the cursor to the
primary-plate step — the recomputed (secondary) step list does not even
contain it and the cursor stays where it was. -/
theorem brand_invalidation_c3_counterexample :
    brandInvalidationCexDraft.ticket.brand = some "KIA_CEED" ∧
    (onCallbackSet none brandInvalidationCexDraft "brand" "SITRAK").draft.step_idx = 2 ∧
    "plate_vats" ∉ active_steps (onCallbackSet none brandInvalidationCexDraft "brand" "SITRAK").draft ∧
    (onCallbackSet none brandInvalidationCexDraft "brand" "SITRAK").draft.mode = RA_MODE := by
  refine ⟨rfl, by decide, by decide, by decide⟩

/-- C3 (amended): a brand set that changes a previously set brand clears
both plate fields in every mode; in primary mode it also moves the cursor
back to the primary-plate step (in secondary mode the recomputed step list
lacks that step and the cursor is left alone); a set that does not change
the brand, and a set of any other field, clears no plate field; and after a
brand change away from SITRAK the primary summary neither shows nor depends
on the (cleared) secondary-plate field. -/
theorem brand_invalidation_c3 (gw : Option Int) (d : Draft) (v : String) :
    (∀ b₀, d.ticket.brand = some b₀ → b₀ ≠ v →
      (onCallbackSet gw d "brand" v).draft.ticket.plate_vats = none ∧
      (onCallbackSet gw d "brand" v).draft.ticket.plate_ref = none) ∧
    (∀ b₀, d.ticket.brand = some b₀ → b₀ ≠ v → d.mode = PRIMARY_MODE →
      (active_steps (onCallbackSet gw d "brand" v).draft).getD
          (onCallbackSet gw d "brand" v).draft.step_idx "" = "plate_vats") ∧
    (∀ key, ¬(key = "brand" ∧ d.ticket.brand ≠ none ∧ d.ticket.brand ≠ some v) →
      ((onCallbackSet gw d key v).draft.ticket.plate_vats = none →
        d.ticket.plate_vats = none) ∧
      ((onCallbackSet gw d key v).draft.ticket.plate_ref = none →
        d.ticket.plate_ref = none)) ∧
    (∀ b₀, d.ticket.brand = some b₀ → b₀ ≠ v → v ≠ "SITRAK" →
      (onCallbackSet gw d "brand" v).draft.ticket.plate_ref = none ∧
      ∀ x, primaryBlockLines { (onCallbackSet gw d "brand" v).draft.ticket with plate_ref := x }
          = primaryBlockLines (onCallbackSet gw d "brand" v).draft.ticket) := by
  refine ⟨fun b₀ hb0 hvne => ?_, fun b₀ hb0 hvne hm => ?_, fun key hnc => ?_,
    fun b₀ hb0 hvne hvS => ?_⟩
  · rw [onCallbackSet_brand_changed gw d v b₀ hb0 hvne]
    split <;> exact ⟨rfl, rfl⟩
  · rw [onCallbackSet_brand_changed gw d v b₀ hb0 hvne]
    have hmem : "plate_vats" ∈ active_steps { d with ticket :=
        { set_field_local d.ticket "brand" (.vstr v) with
          plate_vats := none, plate_ref := none } } := by
      unfold active_steps
      dsimp only
      rw [if_pos hm]
      exact plate_vats_mem_primary _
    rw [if_pos (contains_of_mem hmem)]
    exact cursor_at_plate_vats_helper _ hm
  · rcases onCallbackSet_ticket_shape gw d key v with h | ⟨rc, h⟩
    · rw [h]
      exact ⟨fun hh => hh, fun hh => hh⟩
    · rw [h]
      have hbf := brandChanged_false_of_not d key v hnc
      obtain ⟨h1, h2⟩ := setTicketOutcome_plates_of_not d.ticket key v hbf
      constructor
      · intro hv
        have hv2 : (setTicketOutcome d.ticket key v).plate_vats = none := hv
        rw [h1] at hv2
        by_cases hk : key = "plate_vats"
        · rw [if_pos hk] at hv2
          exact Option.noConfusion hv2
        · rwa [if_neg hk] at hv2
      · intro hv
        have hv2 : (setTicketOutcome d.ticket key v).plate_ref = none := hv
        rw [h2] at hv2
        by_cases hk : key = "plate_ref"
        · rw [if_pos hk] at hv2
          exact Option.noConfusion hv2
        · rwa [if_neg hk] at hv2
  · rw [onCallbackSet_brand_changed gw d v b₀ hb0 hvne]
    have hbrand : ({ set_field_local d.ticket "brand" (.vstr v) with
        plate_vats := none, plate_ref := none } : Ticket).brand = some v := by
      rw [show ({ set_field_local d.ticket "brand" (.vstr v) with
          plate_vats := none, plate_ref := none } : Ticket).brand
          = (set_field_local d.ticket "brand" (.vstr v)).brand from rfl]
      rw [set_field_local_brand]
      simp
    have hnb : ¬ ({ set_field_local d.ticket "brand" (.vstr v) with
        plate_vats := none, plate_ref := none } : Ticket).brand = some "SITRAK" := by
      rw [hbrand]
      simp [hvS]
    split <;>
      exact ⟨rfl, fun x => primary_lines_plate_ref_indep _ x hnb⟩

theorem brand_invalidation_c3_witness :
    ((onCallbackSet none brandInvalidationWitnessDraft "brand" "KIA_CEED").draft.ticket.plate_vats
        = none ∧
     (onCallbackSet none brandInvalidationWitnessDraft "brand" "KIA_CEED").draft.ticket.plate_ref
        = none) ∧
    (active_steps (onCallbackSet none brandInvalidationWitnessDraft "brand" "KIA_CEED").draft).getD
        (onCallbackSet none brandInvalidationWitnessDraft "brand" "KIA_CEED").draft.step_idx ""
      = "plate_vats" ∧
    ((onCallbackSet none brandInvalidationWitnessDraft "notes" "KIA_CEED").draft.ticket.plate_ref
        = none → brandInvalidationWitnessDraft.ticket.plate_ref = none) ∧
    primaryBlockLines
        { (onCallbackSet none brandInvalidationWitnessDraft "brand" "KIA_CEED").draft.ticket with
          plate_ref := some "АВ123477" }
      = primaryBlockLines
          (onCallbackSet none brandInvalidationWitnessDraft "brand" "KIA_CEED").draft.ticket :=
  ⟨(brand_invalidation_c3 none brandInvalidationWitnessDraft "KIA_CEED").1 "SITRAK" rfl (by decide),
   (brand_invalidation_c3 none brandInvalidationWitnessDraft "KIA_CEED").2.1 "SITRAK" rfl
     (by decide) rfl,
   ((brand_invalidation_c3 none brandInvalidationWitnessDraft "KIA_CEED").2.2.1 "notes"
     (by decide)).2,
   ((brand_invalidation_c3 none brandInvalidationWitnessDraft "KIA_CEED").2.2.2 "SITRAK" rfl
     (by decide) (by decide)).2 (some "АВ123477")⟩

/-! ### C4: editing exits to preview on a successful answer -/

@[simp]
theorem clamp_step_idx_custom (d : Draft) :
    (clamp_step_idx d).incident_source_custom = d.incident_source_custom := by
  unfold clamp_step_idx
  dsimp only
  split <;> rfl

theorem key_of_kind_plate {key : String} (h : STEP_INPUT_KIND key = "plate") :
    key = "plate_vats" := by
  unfold STEP_INPUT_KIND at h
  cases hf : fieldKeyOf key with
  | none => rw [hf] at h; exact absurd h (by decide)
  | some fk =>
    rw [hf] at h
    have hk := fieldKeyOf_eq_some hf
    cases fk <;> first
      | exact absurd h (by decide)
      | exact hk

theorem key_of_kind_plate_ref {key : String} (h : STEP_INPUT_KIND key = "plate_ref") :
    key = "plate_ref" := by
  unfold STEP_INPUT_KIND at h
  cases hf : fieldKeyOf key with
  | none => rw [hf] at h; exact absurd h (by decide)
  | some fk =>
    rw [hf] at h
    have hk := fieldKeyOf_eq_some hf
    cases fk <;> first
      | exact absurd h (by decide)
      | exact hk

theorem onTextAfterSet_editing_exit (mode : String) (d : Draft)
    (he : d.editing = true) (hm : mode = PRIMARY_MODE) :
    (onTextAfterSet mode d).draft.editing = false ∧ (onTextAfterSet mode d).ui = Ui.preview := by
  unfold onTextAfterSet
  rw [if_pos (by simp [he, hm])]
  exact ⟨rfl, rfl⟩

/-- A successful free-text (or custom-source) answer continues into the
common tail with the editing flag untouched. -/
theorem onText_text_shape (d : Draft) (raw : String)
    (hsrc : STEP_INPUT_KIND (current_key d) = "text" ∨
      (current_key d = "incident_source" ∧ d.incident_source_custom = true))
    (hne : pyStrip raw ≠ "") :
    ∃ D, onText d raw = onTextAfterSet d.mode D ∧ D.editing = d.editing := by
  unfold onText
  dsimp only
  rcases hsrc with hk | ⟨hks, hcf⟩
  · rw [if_neg (by rw [hk]; decide), if_neg (by rw [hk]; decide),
      if_pos (by simp [hk]), if_neg hne]
    exact ⟨_, rfl, by simp⟩
  · have hchoice : STEP_INPUT_KIND (current_key d) = "choice" := by rw [hks]; rfl
    rw [if_neg (by rw [hchoice]; decide), if_neg (by rw [hchoice]; decide),
      if_pos (by simp [hks, hcf]), if_neg hne]
    exact ⟨_, rfl, by simp⟩

/-- A valid trailer-plate answer continues into the common tail with the
editing flag untouched. -/
theorem onText_plate_ref_shape (d : Draft) (raw n : String)
    (hkind : STEP_INPUT_KIND (current_key d) = "plate_ref")
    (hn : normalize_ref_plate (pyStrip raw) = some n) :
    ∃ D, onText d raw = onTextAfterSet d.mode D ∧ D.editing = d.editing := by
  unfold onText
  dsimp only
  rw [if_neg (by rw [hkind]; decide), if_pos hkind, hn]
  exact ⟨_, rfl, by simp⟩

/-- A valid primary-plate answer outside the SITRAK force-jump continues
into the common tail with the editing flag untouched. -/
theorem onText_plate_shape (d : Draft) (raw n : String)
    (hkind : STEP_INPUT_KIND (current_key d) = "plate")
    (hn : normalize_vats_plate (pyStrip raw) d.ticket.brand = some n)
    (hnj : ¬(d.ticket.brand = some "SITRAK" ∧ pyTruthyStrOpt d.ticket.plate_ref = false)) :
    ∃ D, onText d raw = onTextAfterSet d.mode D ∧ D.editing = d.editing := by
  have hkey := key_of_kind_plate hkind
  unfold onText
  dsimp only
  simp only [clamp_step_idx_ticket]
  rw [if_pos hkind, hn]
  dsimp only
  rw [if_neg ?hguard]
  case hguard =>
    intro hcon
    simp only [Bool.and_eq_true, beq_iff_eq] at hcon
    obtain ⟨⟨⟨⟨⟨-, -⟩, -⟩, hbr⟩, hrefneg⟩, -⟩ := hcon
    rw [show (set_field_local d.ticket (current_key d) (FieldVal.vstr n)).brand
        = d.ticket.brand from by
      rw [set_field_local_brand, if_neg (by rw [hkey]; decide)]] at hbr
    rw [show (set_field_local d.ticket (current_key d) (FieldVal.vstr n)).plate_ref
        = d.ticket.plate_ref from by
      rw [set_field_local_plate_ref, if_neg (by rw [hkey]; decide)]] at hrefneg
    have hfalse : pyTruthyStrOpt d.ticket.plate_ref = false := by
      cases hx : pyTruthyStrOpt d.ticket.plate_ref with
      | false => rfl
      | true => rw [hx] at hrefneg; exact Bool.noConfusion hrefneg
    exact hnj ⟨hbr, hfalse⟩
  exact ⟨_, rfl, by simp⟩

/-- A `set|` of a known key that triggers neither the custom-source prompt
nor a force-jump continues into the common tail with flags untouched. -/
theorem onCallbackSet_no_jump_shape (gw : Option Int) (d : Draft) (key v : String)
    (hkn : key ∈ ALL_KNOWN_KEYS)
    (hnc : ¬(key = "incident_source" ∧ v = INCIDENT_SOURCE_CUSTOM_VALUE))
    (hnb : ¬(key = "brand" ∧ d.ticket.brand ≠ none ∧ d.ticket.brand ≠ some v))
    (hnj : ¬(key = "brand" ∧ v = "SITRAK" ∧ pyTruthyStrOpt d.ticket.plate_ref = false)) :
    ∃ D, onCallbackSet gw d key v = onCallbackSetAdvance gw key D ∧
      D.editing = d.editing ∧ D.mode = d.mode := by
  unfold onCallbackSet
  rw [if_neg (fun hcon => hcon hkn)]
  rw [if_neg hnc]
  split <;> dsimp only <;>
  · simp only [hbc_eq_aux key v d.ticket]
    have hbf := brandChanged_false_of_not d key v hnb
    simp only [hbf, Bool.not_false, Bool.true_and, Bool.false_eq_true, if_false]
    rw [if_neg ?_]
    · exact ⟨_, rfl, rfl, rfl⟩
    · intro hcon
      simp only [Bool.and_eq_true, beq_iff_eq] at hcon
      obtain ⟨⟨⟨⟨⟨-, -⟩, hkb⟩, hvs⟩, hrefneg⟩, -⟩ := hcon
      rw [show (set_field_local d.ticket key (FieldVal.vstr v)).plate_ref
          = d.ticket.plate_ref from by
        rw [set_field_local_plate_ref, if_neg (by rw [hkb]; decide)]] at hrefneg
      have hfalse : pyTruthyStrOpt d.ticket.plate_ref = false := by
        cases hx : pyTruthyStrOpt d.ticket.plate_ref with
        | false => rfl
        | true => rw [hx] at hrefneg; exact Bool.noConfusion hrefneg
      exact hnj ⟨hkb, hvs, hfalse⟩

theorem active_steps_primary (D : Draft) (hm : D.mode = PRIMARY_MODE) :
    active_steps D = _steps_for_primary (some D.ticket) := by
  unfold active_steps
  rw [if_pos hm]

/-- The third editing exception: storing `brand = SITRAK` while editing in
primary mode, when it is NOT a brand change and the trailer plate is still
empty, force-jumps to the trailer-plate question instead of exiting. -/
theorem onCallbackSet_sitrak_jump (gw : Option Int) (d : Draft)
    (he : d.editing = true) (hm : d.mode = PRIMARY_MODE)
    (hbr : d.ticket.brand = none ∨ d.ticket.brand = some "SITRAK")
    (href : pyTruthyStrOpt d.ticket.plate_ref = false) :
    onCallbackSet gw d "brand" "SITRAK" =
      ⟨set_step_idx { d with ticket := set_field_local d.ticket "brand" (.vstr "SITRAK") }
        (listIndexOf "plate_ref"
          (active_steps { d with ticket := set_field_local d.ticket "brand" (.vstr "SITRAK") })),
       Ui.askNoSkip "plate_ref", []⟩ := by
  unfold onCallbackSet
  rw [if_neg (by decide : ¬(("brand" : String) ∉ ALL_KNOWN_KEYS))]
  rw [if_neg (by rintro ⟨hcon, -⟩; exact absurd hcon (by decide))]
  rw [if_neg (by decide : ¬(("brand" : String) = "incident_source"))]
  dsimp only
  have hbc : (("brand" : String) == "brand" && d.ticket.brand.isSome
      && (d.ticket.brand != some "SITRAK")) = false := by
    rcases hbr with hb | hb <;> simp [hb]
  simp only [if_true, hbc, Bool.not_false, Bool.true_and, Bool.false_eq_true, if_false]
  have href2 : pyTruthyStrOpt
      (set_field_local d.ticket "brand" (.vstr "SITRAK")).plate_ref = false := by
    rw [set_field_local_plate_ref, if_neg (by decide)]
    exact href
  split
  · rfl
  · next hcond =>
    have hmem : "plate_ref" ∈ active_steps { d with ticket := set_field_local d.ticket "brand" (FieldVal.vstr "SITRAK"), mode := PRIMARY_MODE, editing := true } := by
      rw [active_steps_primary _ rfl]
      rw [plate_ref_mem_primary]
      show (set_field_local d.ticket "brand" (FieldVal.vstr "SITRAK")).brand = some "SITRAK"
      rw [set_field_local_brand, if_pos rfl]
    have hc2 := contains_of_mem hmem
    exact absurd (by simp [he, hm, href2, hc2, hmem]) hcond

/-- C4 counterexample: while editing the primary plate of a SITRAK ticket
with no trailer plate yet, a VALID plate answer stores the value but does
NOT clear the editing flag or return to the preview — it force-jumps to the
trailer-plate question instead.  So the vehicle counter is not the single
exception the claim states. -/
theorem editing_exit_c4_counterexample :
    editingExitCexDraft.editing = true ∧
    editingExitCexDraft.mode = PRIMARY_MODE ∧
    (onText editingExitCexDraft "A123BC77").draft.ticket.plate_vats = some "А123ВС77" ∧
    (onText editingExitCexDraft "A123BC77").draft.editing = true ∧
    (onText editingExitCexDraft "A123BC77").ui = Ui.askNoSkip "plate_ref" ∧
    (onText editingExitCexDraft "A123BC77").ui ≠ Ui.preview := by
  refine ⟨rfl, rfl, by decide, by decide, by decide, by decide⟩

/-- C4 (amended): while the editing flag is set in primary mode, a
successful answer exits immediately to the preview and clears the flag —
EXCEPT (a) the vehicle counter, which keeps the flag on +/− and exits only
on the explicit done, (b) a valid primary-plate answer for a SITRAK ticket
with the trailer plate still unset, which force-jumps to the trailer-plate
question, and (c) a brand answer that is a change of a previously set
non-null brand, which clears the plates and force-jumps to the
primary-plate question, or that (non-changingly) sets SITRAK with the
trailer plate unset, which force-jumps to the trailer-plate question — the
exceptional cases all leave the editing flag set (the last two proved as
the final two conjuncts). -/
theorem editing_exit_c4 :
    (∀ (d : Draft) (raw : String),
      d.editing = true → d.mode = PRIMARY_MODE →
      (STEP_INPUT_KIND (current_key d) = "text" ∨
        (current_key d = "incident_source" ∧ d.incident_source_custom = true)) →
      pyStrip raw ≠ "" →
      (onText d raw).draft.editing = false ∧ (onText d raw).ui = Ui.preview) ∧
    (∀ (d : Draft) (raw n : String),
      d.editing = true → d.mode = PRIMARY_MODE →
      STEP_INPUT_KIND (current_key d) = "plate_ref" →
      normalize_ref_plate (pyStrip raw) = some n →
      (onText d raw).draft.editing = false ∧ (onText d raw).ui = Ui.preview) ∧
    (∀ (d : Draft) (raw n : String),
      d.editing = true → d.mode = PRIMARY_MODE →
      STEP_INPUT_KIND (current_key d) = "plate" →
      normalize_vats_plate (pyStrip raw) d.ticket.brand = some n →
      ¬(d.ticket.brand = some "SITRAK" ∧ pyTruthyStrOpt d.ticket.plate_ref = false) →
      (onText d raw).draft.editing = false ∧ (onText d raw).ui = Ui.preview) ∧
    (∀ (gw : Option Int) (d : Draft) (key v : String),
      d.editing = true → d.mode = PRIMARY_MODE →
      key ∈ ALL_KNOWN_KEYS →
      ¬(key = "incident_source" ∧ v = INCIDENT_SOURCE_CUSTOM_VALUE) →
      ¬(key = "brand" ∧ d.ticket.brand ≠ none ∧ d.ticket.brand ≠ some v) →
      ¬(key = "brand" ∧ v = "SITRAK" ∧ pyTruthyStrOpt d.ticket.plate_ref = false) →
      (onCallbackSet gw d key v).draft.editing = false ∧
      (onCallbackSet gw d key v).ui = Ui.preview) ∧
    (∀ (d : Draft) (kind : String),
      (onCallbackVeh d "plus" kind).draft.editing = d.editing ∧
      (onCallbackVeh d "plus" kind).ui = Ui.askCounter ∧
      (onCallbackVeh d "minus" kind).draft.editing = d.editing ∧
      (onCallbackVeh d "minus" kind).ui = Ui.askCounter) ∧
    (∀ (d : Draft) (kind : String),
      d.editing = true → d.mode = PRIMARY_MODE →
      (onCallbackVeh d "done" kind).draft.editing = false ∧
      (onCallbackVeh d "done" kind).ui = Ui.preview) ∧
    (∀ (gw : Option Int) (d : Draft) (v b₀ : String),
      d.editing = true → d.mode = PRIMARY_MODE →
      d.ticket.brand = some b₀ → b₀ ≠ v →
      (onCallbackSet gw d "brand" v).draft.editing = true ∧
      (onCallbackSet gw d "brand" v).ui = Ui.ask "plate_vats") ∧
    (∀ (gw : Option Int) (d : Draft),
      d.editing = true → d.mode = PRIMARY_MODE →
      (d.ticket.brand = none ∨ d.ticket.brand = some "SITRAK") →
      pyTruthyStrOpt d.ticket.plate_ref = false →
      (onCallbackSet gw d "brand" "SITRAK").draft.editing = true ∧
      (onCallbackSet gw d "brand" "SITRAK").ui = Ui.askNoSkip "plate_ref") := by
  refine ⟨fun d raw he hm hsrc hne => ?_, fun d raw n he hm hkind hn => ?_,
    fun d raw n he hm hkind hn hnj => ?_, fun gw d key v he hm hkn hnc hnb hnj => ?_,
    fun d kind => ⟨rfl, rfl, rfl, rfl⟩, fun d kind he hm => ?_,
    fun gw d v b₀ he hm hb0 hvne => ?_, fun gw d he hm hbr href => ?_⟩
  · obtain ⟨D, hD, hDe⟩ := onText_text_shape d raw hsrc hne
    rw [hD]
    exact onTextAfterSet_editing_exit d.mode D (by rw [hDe]; exact he) hm
  · obtain ⟨D, hD, hDe⟩ := onText_plate_ref_shape d raw n hkind hn
    rw [hD]
    exact onTextAfterSet_editing_exit d.mode D (by rw [hDe]; exact he) hm
  · obtain ⟨D, hD, hDe⟩ := onText_plate_shape d raw n hkind hn hnj
    rw [hD]
    exact onTextAfterSet_editing_exit d.mode D (by rw [hDe]; exact he) hm
  · obtain ⟨D, hD, hDe, hDm⟩ := onCallbackSet_no_jump_shape gw d key v hkn hnc hnb hnj
    rw [hD]
    exact onCallbackSetAdvance_editing_exit gw key D (by rw [hDe]; exact he)
      (by rw [hDm]; exact hm)
  · unfold onCallbackVeh
    rw [if_neg (by decide), if_pos rfl]
    rw [if_pos (by simp [he, hm])]
    exact ⟨rfl, rfl⟩
  · rw [onCallbackSet_brand_changed gw d v b₀ hb0 hvne]
    split
    · exact ⟨(set_step_idx_editing _ _).trans he, rfl⟩
    · next hcond =>
      exfalso
      apply hcond
      apply contains_of_mem
      unfold active_steps
      dsimp only
      rw [if_pos hm]
      exact plate_vats_mem_primary _
  · rw [onCallbackSet_sitrak_jump gw d he hm hbr href]
    exact ⟨(set_step_idx_editing _ _).trans he, rfl⟩

theorem editing_exit_c4_witness :
    ((onText editingExitWitnessDraft " hello ").draft.editing = false ∧
     (onText editingExitWitnessDraft " hello ").ui = Ui.preview) ∧
    ((onCallbackSet none editingExitWitnessDraft "obstacle_on_road" "YES").draft.editing = false ∧
     (onCallbackSet none editingExitWitnessDraft "obstacle_on_road" "YES").ui = Ui.preview) ∧
    ((onCallbackVeh editingExitWitnessDraft "done" "bus").draft.editing = false ∧
     (onCallbackVeh editingExitWitnessDraft "done" "bus").ui = Ui.preview) ∧
    ((onCallbackSet none { ticket := { id := "w4b", brand := some "SITRAK" }, step_idx := 0, mode := PRIMARY_MODE, editing := true } "brand" "KIA_CEED").draft.editing = true ∧
     (onCallbackSet none { ticket := { id := "w4b", brand := some "SITRAK" }, step_idx := 0, mode := PRIMARY_MODE, editing := true } "brand" "KIA_CEED").ui = Ui.ask "plate_vats") ∧
    ((onCallbackSet none editingExitWitnessDraft "brand" "SITRAK").draft.editing = true ∧
     (onCallbackSet none editingExitWitnessDraft "brand" "SITRAK").ui = Ui.askNoSkip "plate_ref") :=
  ⟨editing_exit_c4.1 editingExitWitnessDraft " hello " rfl rfl (Or.inl (by decide)) (by decide),
   editing_exit_c4.2.2.2.1 none editingExitWitnessDraft "obstacle_on_road" "YES" rfl rfl
     (by decide) (by decide) (by decide) (by decide),
   editing_exit_c4.2.2.2.2.2.1 editingExitWitnessDraft "bus" rfl rfl,
   editing_exit_c4.2.2.2.2.2.2.1 none _ "KIA_CEED" "SITRAK" rfl rfl rfl (by decide),
   editing_exit_c4.2.2.2.2.2.2.2 none editingExitWitnessDraft rfl rfl (Or.inl rfl) rfl⟩

/-! ### C9: the vehicle-count invariant -/

theorem onTextAfterSet_ticket (mode : String) (d : Draft) :
    (onTextAfterSet mode d).draft.ticket = d.ticket := by
  unfold onTextAfterSet
  dsimp only
  repeat' split
  all_goals simp

theorem ne_dtp_vehicles_of_kind {key kd : String} (h : STEP_INPUT_KIND key = kd)
    (hk : kd ≠ "counter") : ¬ key = "dtp_vehicles" := by
  intro he
  rw [he] at h
  have hc : STEP_INPUT_KIND "dtp_vehicles" = "counter" := by decide
  exact hk (h.symm.trans hc)

theorem onText_vehicles (d : Draft) (raw : String) :
    (onText d raw).draft.ticket.dtp_vehicles = d.ticket.dtp_vehicles := by
  unfold onText
  dsimp only
  split
  case isTrue hplate =>
    split
    · simp
    · split
      · simp [set_field_local_dtp_vehicles, if_neg (ne_dtp_vehicles_of_kind hplate (by decide))]
      · rw [onTextAfterSet_ticket]
        simp [set_field_local_dtp_vehicles, if_neg (ne_dtp_vehicles_of_kind hplate (by decide))]
  case isFalse h1 =>
    split
    case isTrue hpr =>
      split
      · simp
      · rw [onTextAfterSet_ticket]
        simp [set_field_local_dtp_vehicles, if_neg (ne_dtp_vehicles_of_kind hpr (by decide))]
    case isFalse h2 =>
      split
      case isTrue htxt =>
        split
        · simp
        · rw [onTextAfterSet_ticket]
          rcases Bool.or_eq_true _ _ |>.mp htxt with hk | hcust
          · simp [set_field_local_dtp_vehicles,
              if_neg (ne_dtp_vehicles_of_kind (of_decide_eq_true hk) (by decide))]
          · have hks : current_key d = "incident_source" := by
              simpa [Bool.and_eq_true, beq_iff_eq] using And.left (Bool.and_eq_true _ _ |>.mp hcust)
            simp [set_field_local_dtp_vehicles, hks]
      case isFalse h3 => simp

theorem setTicketOutcome_vehicles (t : Ticket) (key v : String) :
    (setTicketOutcome t key v).dtp_vehicles
      = (set_field_local t key (.vstr v)).dtp_vehicles := by
  unfold setTicketOutcome
  dsimp only
  split <;> rfl

theorem onCallbackSet_vehicles (gw : Option Int) (d : Draft) (key v : String)
    (hch : STEP_INPUT_KIND key = "choice") :
    (onCallbackSet gw d key v).draft.ticket.dtp_vehicles = d.ticket.dtp_vehicles := by
  rcases onCallbackSet_ticket_shape gw d key v with h | ⟨rc, h⟩
  · rw [h]
  · rw [h]
    have : ({ setTicketOutcome d.ticket key v with ra_chat_id := rc }).dtp_vehicles
        = (setTicketOutcome d.ticket key v).dtp_vehicles := rfl
    rw [this, setTicketOutcome_vehicles, set_field_local_dtp_vehicles,
      if_neg (ne_dtp_vehicles_of_kind hch (by decide))]

theorem skipTicketField_vehicles (t : Ticket) (k : String) :
    (skipTicketField t k).dtp_vehicles
      = if k = "dtp_vehicles" then [] else t.dtp_vehicles := by
  by_cases hk : k = "dtp_vehicles"
  · simp [skipTicketField, hk]
  · simp [skipTicketField, hk, set_field_local_dtp_vehicles]

theorem finishRaFlow_vehicles (gw : Option Int) (X : Draft) :
    (finishRaFlow gw X).draft.ticket.dtp_vehicles = X.ticket.dtp_vehicles := by
  obtain ⟨rc, hrc⟩ := finishRaFlow_draft_ticket gw X
  rw [hrc]

theorem onCallbackNavSkip_vehicles (gw : Option Int) (d : Draft) (k : String) :
    (onCallbackNavSkip gw d k).draft.ticket.dtp_vehicles
      = (skipTicketField d.ticket k).dtp_vehicles := by
  unfold onCallbackNavSkip
  dsimp only
  repeat' split
  all_goals first
    | simp
    | (rw [finishRaFlow_vehicles])

theorem onCallbackNavBack_ticket (d : Draft) (k : String) :
    (onCallbackNavBack d k).draft.ticket = d.ticket := by
  unfold onCallbackNavBack
  dsimp only
  repeat' split
  all_goals simp

theorem onCallbackActRa_ticket (d : Draft) :
    (onCallbackActRa d).draft.ticket = d.ticket := by
  unfold onCallbackActRa
  dsimp only
  split
  · rfl
  · simp

theorem onCallbackVeh_vehicles (d : Draft) (a kind : String) :
    (onCallbackVeh d a kind).draft.ticket.dtp_vehicles = d.ticket.dtp_vehicles ∨
    ∃ x, (onCallbackVeh d a kind).draft.ticket.dtp_vehicles
        = dictSet d.ticket.dtp_vehicles kind (max 0 x) := by
  unfold onCallbackVeh
  dsimp only
  repeat' split
  all_goals first
    | exact Or.inr ⟨_, rfl⟩
    | exact Or.inl (by simp)

/-- C9: the vehicle-count mapping always carries non-negative counts (so it
is total with non-negative values under the `get(k, 0)` view), and every
user operation — counter adjustment, text answer, enumerated-field set,
skip, back navigation, entering the secondary workflow — preserves this. -/
theorem vehicle_invariant_c9 (gw : Option Int) (op : UserOp) (d : Draft)
    (hinv : vehInvariant d.ticket.dtp_vehicles) (hwf : opEnumeratedOnly op) :
    vehInvariant (applyUserOp gw op d).ticket.dtp_vehicles ∧
    ∀ k, 0 ≤ dictGet (applyUserOp gw op d).ticket.dtp_vehicles k 0 := by
  have main : vehInvariant (applyUserOp gw op d).ticket.dtp_vehicles := by
    cases op with
    | veh a kind =>
      rcases onCallbackVeh_vehicles d a kind with h | ⟨x, h⟩
      · rw [applyUserOp, h]; exact hinv
      · rw [applyUserOp, h]
        exact dictSet_nonneg _ _ _ hinv (le_max_left 0 x)
    | txt raw => rw [applyUserOp, onText_vehicles]; exact hinv
    | setf key v => rw [applyUserOp, onCallbackSet_vehicles gw d key v hwf]; exact hinv
    | skipf k =>
      rw [applyUserOp, onCallbackNavSkip_vehicles, skipTicketField_vehicles]
      split
      · intro p hp; cases hp
      · exact hinv
    | back k => rw [applyUserOp, onCallbackNavBack_ticket]; exact hinv
    | actRa => rw [applyUserOp, onCallbackActRa_ticket]; exact hinv
  exact ⟨main, fun k => dictGet_nonneg _ _ main⟩

theorem vehicle_invariant_c9_witness :
    vehInvariant ({ ticket := { id := "w9", dtp_vehicles := [("bus", 2)] } }
        : Draft).ticket.dtp_vehicles ∧
    vehInvariant (applyUserOp none (UserOp.veh "plus" "light")
        { ticket := { id := "w9", dtp_vehicles := [("bus", 2)] } }).ticket.dtp_vehicles ∧
    0 ≤ dictGet (applyUserOp none (UserOp.veh "plus" "light")
        { ticket := { id := "w9", dtp_vehicles := [("bus", 2)] } }).ticket.dtp_vehicles
        "light" 0 :=
  ⟨by decide,
   (vehicle_invariant_c9 none (UserOp.veh "plus" "light")
     { ticket := { id := "w9", dtp_vehicles := [("bus", 2)] } } (by decide) trivial).1,
   (vehicle_invariant_c9 none (UserOp.veh "plus" "light")
     { ticket := { id := "w9", dtp_vehicles := [("bus", 2)] } } (by decide) trivial).2 "light"⟩

theorem close_policy_c5_witness :
    close_issue_by_best_transition (some ([] : List JTransition), none)
        = CloseOutcome.errorReturn noTransitionsText ∧
    close_issue_by_best_transition
        (some [{ id := some "5", name := some "Done", toName := none }], none)
      = CloseOutcome.applyTransition "5" ∧
    (onCallbackClose (some [], none) none { ticket := { id := "w5" } }).1
        = { ticket := { id := "w5" } } :=
  ⟨(close_policy_c5 []).1 rfl,
   (close_policy_c5 [{ id := some "5", name := some "Done", toName := none }]).2.1
     { id := some "5", name := some "Done", toName := none } "5" rfl rfl (by decide),
   (close_policy_c5 []).2.2.2 { ticket := { id := "w5" } } (some [], none) none⟩

/-! ### C6: the plate-normalization pipeline -/

theorem series_not_digit {c : Char} (h : isSeriesCyr c = true) : c.isDigit = false := by
  simp only [isSeriesCyr, Bool.or_eq_true, beq_iff_eq] at h
  rcases h with ((((((((((h | h) | h) | h) | h) | h) | h) | h) | h) | h) | h) | h <;>
    subst h <;> decide

theorem takeWhile_shape {p : Char → Bool} {d l : List Char} {a : Char}
    (hd : d.all p = true) (ha : p a = false) :
    (d ++ a :: l).takeWhile p = d ∧ (d ++ a :: l).dropWhile p = a :: l := by
  induction d with
  | nil => simp [List.takeWhile_cons, List.dropWhile_cons, ha]
  | cons c cs ih =>
    rw [List.all_cons, Bool.and_eq_true] at hd
    obtain ⟨hc, hcs⟩ := hd
    have h2 := ih hcs
    constructor
    · rw [List.cons_append, List.takeWhile_cons, if_pos hc, h2.1]
    · rw [List.cons_append, List.dropWhile_cons, if_pos hc, h2.2]

theorem parseVats_sound {lo hi : Nat} {cs : List Char} {l1 a b : Char} {d reg : List Char}
    (h : parseVats lo hi cs = some (l1, d, a, b, reg)) :
    cs = l1 :: (d ++ a :: b :: reg) ∧ isSeriesCyr l1 = true ∧
    d.all Char.isDigit = true ∧ lo ≤ d.length ∧ d.length ≤ hi ∧
    isSeriesCyr a = true ∧ isSeriesCyr b = true ∧ reg.all Char.isDigit = true ∧
    2 ≤ reg.length ∧ reg.length ≤ 3 := by
  match cs with
  | [] => exact Option.noConfusion h
  | c :: rest =>
    unfold parseVats at h
    dsimp only at h
    split at h
    case isTrue hs =>
      split at h
      case isTrue hlen =>
        split at h
        case h_1 a' b' reg' heq =>
          split at h
          case isTrue hcond =>
            injection h with h
            simp only [Prod.mk.injEq] at h
            obtain ⟨rfl, rfl, rfl, rfl, rfl⟩ := h
            obtain ⟨ha', hb', hreg', h2', h3'⟩ := hcond
            refine ⟨?_, hs, List.all_takeWhile, hlen.1, hlen.2, ha', hb', hreg', h2', h3'⟩
            have hrest : rest = List.takeWhile Char.isDigit rest ++ a' :: b' :: reg' := by
              rw [← heq]
              exact (List.takeWhile_append_dropWhile Char.isDigit rest).symm
            exact congrArg (List.cons c) hrest
          case isFalse => exact Option.noConfusion h
        case h_2 => exact Option.noConfusion h
      case isFalse => exact Option.noConfusion h
    case isFalse => exact Option.noConfusion h

theorem parseVats_complete {lo hi : Nat} {l1 a b : Char} {d reg : List Char}
    (h1 : isSeriesCyr l1 = true) (hd : d.all Char.isDigit = true)
    (hlo : lo ≤ d.length) (hhi : d.length ≤ hi)
    (ha : isSeriesCyr a = true) (hb : isSeriesCyr b = true)
    (hreg : reg.all Char.isDigit = true) (h2 : 2 ≤ reg.length) (h3 : reg.length ≤ 3) :
    parseVats lo hi (l1 :: (d ++ a :: b :: reg)) = some (l1, d, a, b, reg) := by
  have hna : Char.isDigit a = false := series_not_digit ha
  have hsh := takeWhile_shape (l := b :: reg) hd hna
  unfold parseVats
  dsimp only
  rw [if_pos h1]
  rw [hsh.1, hsh.2, if_pos ⟨hlo, hhi⟩]
  dsimp only
  rw [if_pos ⟨ha, hb, hreg, h2, h3⟩]

theorem normalize_vats_pipeline {text : String} {brand : Option String} {r : String}
    (h : normalize_vats_plate text brand = some r) : r = stripMapPlate text := by
  unfold normalize_vats_plate at h
  by_cases ht : text = ""
  · rw [if_pos ht] at h; exact Option.noConfusion h
  · rw [if_neg ht] at h
    dsimp only at h
    by_cases hb : brand = some "KIA_CEED"
    · rw [if_pos hb] at h
      cases hp : parseVats 3 3 (stripMapPlate text).data with
      | none => rw [hp] at h; exact Option.noConfusion h
      | some q =>
        obtain ⟨l1, d, a, b, reg⟩ := q
        rw [hp] at h
        dsimp only at h
        injection h with h
        subst h
        exact congrArg String.mk (parseVats_sound hp).1.symm
    · rw [if_neg hb] at h
      cases hp : parseVats 3 4 (stripMapPlate text).data with
      | none => rw [hp] at h; exact Option.noConfusion h
      | some q =>
        obtain ⟨l1, d, a, b, reg⟩ := q
        rw [hp] at h
        dsimp only at h
        injection h with h
        subst h
        exact congrArg String.mk (parseVats_sound hp).1.symm

theorem normalize_vats_some_iff (text : String) (brand : Option String) :
    (∃ r, normalize_vats_plate text brand = some r) ↔
      (text ≠ "" ∧ vatsShape 3 (if brand = some "KIA_CEED" then 3 else 4)
        (stripMapPlate text).data) := by
  unfold normalize_vats_plate
  by_cases ht : text = ""
  · rw [if_pos ht]
    simp [ht]
  · rw [if_neg ht]
    dsimp only
    by_cases hb : brand = some "KIA_CEED"
    · rw [if_pos hb, if_pos hb]
      constructor
      · rintro ⟨r, hr⟩
        refine ⟨ht, ?_⟩
        cases hp : parseVats 3 3 (stripMapPlate text).data with
        | none => rw [hp] at hr; exact Option.noConfusion hr
        | some q =>
          obtain ⟨l1, d, a, b, reg⟩ := q
          exact ⟨l1, d, a, b, reg, parseVats_sound hp⟩
      · rintro ⟨-, l1, d, a, b, reg, hcs, h1, hd, hlo, hhi, ha, hb', hreg, h2, h3⟩
        refine ⟨String.mk (l1 :: (d ++ a :: b :: reg)), ?_⟩
        rw [hcs, parseVats_complete h1 hd hlo hhi ha hb' hreg h2 h3]
    · rw [if_neg hb, if_neg hb]
      constructor
      · rintro ⟨r, hr⟩
        refine ⟨ht, ?_⟩
        cases hp : parseVats 3 4 (stripMapPlate text).data with
        | none => rw [hp] at hr; exact Option.noConfusion hr
        | some q =>
          obtain ⟨l1, d, a, b, reg⟩ := q
          exact ⟨l1, d, a, b, reg, parseVats_sound hp⟩
      · rintro ⟨-, l1, d, a, b, reg, hcs, h1, hd, hlo, hhi, ha, hb', hreg, h2, h3⟩
        refine ⟨String.mk (l1 :: (d ++ a :: b :: reg)), ?_⟩
        rw [hcs, parseVats_complete h1 hd hlo hhi ha hb' hreg h2 h3]

theorem format_vats_spaced {l1 a b : Char} {d reg : List Char}
    (h1 : isSeriesCyr l1 = true) (hd : d.all Char.isDigit = true)
    (hlo : 3 ≤ d.length) (hhi : d.length ≤ 4)
    (ha : isSeriesCyr a = true) (hb : isSeriesCyr b = true)
    (hreg : reg.all Char.isDigit = true) (h2 : 2 ≤ reg.length) (h3 : reg.length ≤ 3) :
    format_vats_display (some (String.mk (l1 :: (d ++ a :: b :: reg)))) =
      String.mk (l1 :: (d ++ a :: b :: ' ' :: reg)) := by
  have hne : String.mk (l1 :: (d ++ a :: b :: reg)) ≠ "" := by
    intro hc
    exact List.noConfusion (congrArg String.data hc)
  unfold format_vats_display
  dsimp only
  rw [if_neg hne]
  rw [parseVats_complete h1 hd hlo hhi ha hb hreg h2 h3]

theorem format_vats_roundtrip {text : String} {brand : Option String} {r : String}
    (h : normalize_vats_plate text brand = some r) :
    ∃ l1 a b : Char, ∃ d reg : List Char,
      r = String.mk (l1 :: (d ++ a :: b :: reg)) ∧
      format_vats_display (some r) = String.mk (l1 :: (d ++ a :: b :: ' ' :: reg)) := by
  have hshape : text ≠ "" ∧ vatsShape 3 (if brand = some "KIA_CEED" then 3 else 4)
      (stripMapPlate text).data := (normalize_vats_some_iff text brand).mp ⟨r, h⟩
  obtain ⟨-, l1, d, a, b, reg, hcs, h1, hd, hlo, hhi, ha, hb', hreg, h2, h3⟩ := hshape
  have hhi4 : d.length ≤ 4 := by
    by_cases hk : brand = some "KIA_CEED"
    · rw [if_pos hk] at hhi; omega
    · rw [if_neg hk] at hhi; exact hhi
  have hr : r = String.mk (l1 :: (d ++ a :: b :: reg)) := by
    rw [normalize_vats_pipeline h]
    exact congrArg String.mk hcs
  refine ⟨l1, a, b, d, reg, hr, ?_⟩
  rw [hr]
  exact format_vats_spaced h1 hd hlo hhi4 ha hb' hreg h2 h3

/-- **C6**: primary-plate normalization is exactly the strip / uppercase /
Latin-to-Cyrillic pipeline (`stripMapPlate`) followed by the brand-dependent
anchored pattern: one series letter, exactly 3 digits for `KIA_CEED` and 3 or
4 digits for every other brand, two series letters and a 2-or-3-digit region
code; every other input yields `none`.  For every accepted input the compact
result is the stripped form itself, display formatting reproduces the same
letters and digits with a single space inserted before the region code, and a
wrong digit count (2 digits here) is rejected for every brand. -/
theorem plate_normalization_c6 :
    (∀ text brand r, normalize_vats_plate text brand = some r → r = stripMapPlate text) ∧
    (∀ text brand,
      (∃ r, normalize_vats_plate text brand = some r) ↔
        (text ≠ "" ∧ vatsShape 3 (if brand = some "KIA_CEED" then 3 else 4)
          (stripMapPlate text).data)) ∧
    (∀ text brand r, normalize_vats_plate text brand = some r →
      ∃ l1 a b : Char, ∃ d reg : List Char,
        r = String.mk (l1 :: (d ++ a :: b :: reg)) ∧
        format_vats_display (some r) = String.mk (l1 :: (d ++ a :: b :: ' ' :: reg))) ∧
    (∀ brand, normalize_vats_plate "А12ВС77" brand = none) := by
  refine ⟨fun text brand r h => normalize_vats_pipeline h,
    fun text brand => normalize_vats_some_iff text brand,
    fun text brand r h => format_vats_roundtrip h,
    fun brand => ?_⟩
  unfold normalize_vats_plate
  rw [if_neg (by decide : ¬("А12ВС77" : String) = "")]
  dsimp only
  by_cases hb : brand = some "KIA_CEED"
  · rw [if_pos hb]; decide
  · rw [if_neg hb]; decide

/-- Witness for C6 at the concrete mixed-case Latin look-alike input
`"a123bc77"` (brand unset, so the 3-or-4-digit pattern applies). -/
theorem plate_normalization_c6_witness :
    normalize_vats_plate "a123bc77" none = some "А123ВС77" ∧
    ("А123ВС77" : String) = stripMapPlate "a123bc77" ∧
    (∃ l1 a b : Char, ∃ d reg : List Char,
      ("А123ВС77" : String) = String.mk (l1 :: (d ++ a :: b :: reg)) ∧
      format_vats_display (some "А123ВС77") =
        String.mk (l1 :: (d ++ a :: b :: ' ' :: reg))) ∧
    normalize_vats_plate "А12ВС77" none = none :=
  ⟨by decide,
   plate_normalization_c6.1 "a123bc77" none "А123ВС77" (by decide),
   plate_normalization_c6.2.2.1 "a123bc77" none "А123ВС77" (by decide),
   plate_normalization_c6.2.2.2 none⟩

end RABot
